import Mathlib

/-!
Verification of the Copilot Compass metrics aggregation pipeline.

Shallow embedding of the report-generator, schema-validator and cache logic.
JavaScript numbers are modelled as exact rationals (`ℚ`); `Math.round` is
`⌊x + 1/2⌋` (round half toward positive infinity, as in JS for finite inputs)
and `Math.floor` is `⌊x⌋`.
-/

namespace Compass

/-- JS `Math.round` on a rational: round half toward +∞. -/
def mathRound (x : ℚ) : ℚ := (⌊x + 1/2⌋ : ℤ)

/-- JS `Math.floor`. -/
def mathFloor (x : ℚ) : ℚ := (⌊x⌋ : ℤ)

/-- `Math.round(x * 100) / 100`: rounding to two decimal places. -/
def round2 (x : ℚ) : ℚ := mathRound (x * 100) / 100

-- =============================================================================
-- Data model (from `types.ts` / the Zod schemas in `schemas.ts`)
-- =============================================================================

/-- One entry of a `languages` array in the code-completions section. -/
structure LanguageMetrics where
  name : String
  total_engaged_users : ℚ
  total_code_suggestions : ℚ
  total_code_acceptances : ℚ
  total_code_lines_suggested : ℚ
  total_code_lines_accepted : ℚ
  deriving Repr, DecidableEq

/-- One entry of a `models` array in the code-completions section. -/
structure ModelMetrics where
  name : String
  is_custom_model : Bool
  total_engaged_users : ℚ
  languages : Option (List LanguageMetrics)
  total_code_suggestions : Option ℚ
  total_code_acceptances : Option ℚ
  total_code_lines_suggested : Option ℚ
  total_code_lines_accepted : Option ℚ
  deriving Repr, DecidableEq

/-- One entry of the `editors` array in the code-completions section. -/
structure EditorMetrics where
  name : String
  total_engaged_users : ℚ
  models : Option (List ModelMetrics)
  deriving Repr, DecidableEq

/-- The `copilot_ide_code_completions` section of a day. -/
structure IdeCodeCompletions where
  total_engaged_users : ℚ
  languages : Option (List LanguageMetrics)
  editors : Option (List EditorMetrics)
  models : Option (List ModelMetrics)
  deriving Repr, DecidableEq

/-- A chat model entry (used by both IDE chat and dotcom chat). -/
structure ChatModelMetrics where
  name : String
  is_custom_model : Bool
  total_engaged_users : ℚ
  total_chats : ℚ
  total_chat_insertion_events : ℚ
  total_chat_copy_events : ℚ
  deriving Repr, DecidableEq

/-- One entry of the `editors` array in the IDE chat section. -/
structure EditorChatMetrics where
  name : String
  total_engaged_users : ℚ
  models : Option (List ChatModelMetrics)
  deriving Repr, DecidableEq

/-- The `copilot_ide_chat` section of a day. -/
structure IdeChatMetrics where
  total_engaged_users : ℚ
  editors : Option (List EditorChatMetrics)
  deriving Repr, DecidableEq

/-- The `copilot_dotcom_chat` section of a day. -/
structure DotcomChatMetrics where
  total_engaged_users : ℚ
  models : Option (List ChatModelMetrics)
  deriving Repr, DecidableEq

/-- A pull-request model entry. -/
structure PullRequestModelMetrics where
  name : String
  is_custom_model : Bool
  total_pr_summaries_created : ℚ
  total_engaged_users : ℚ
  deriving Repr, DecidableEq

/-- One entry of the `repositories` array in the pull-request section. -/
structure RepositoryMetrics where
  name : String
  total_engaged_users : ℚ
  models : Option (List PullRequestModelMetrics)
  deriving Repr, DecidableEq

/-- The `copilot_dotcom_pull_requests` section of a day. -/
structure PullRequestMetrics where
  total_engaged_users : ℚ
  repositories : Option (List RepositoryMetrics)
  deriving Repr, DecidableEq

/-- One validated day of raw Copilot usage metrics (`CopilotUsageMetrics`). -/
structure CopilotUsageMetrics where
  date : String
  total_active_users : ℚ
  total_engaged_users : ℚ
  copilot_ide_code_completions : Option IdeCodeCompletions
  copilot_ide_chat : Option IdeChatMetrics
  copilot_dotcom_chat : Option DotcomChatMetrics
  copilot_dotcom_pull_requests : Option PullRequestMetrics
  deriving Repr, DecidableEq

/-- Flattened per-day metrics (`DailyMetrics` in `types.ts`). -/
structure DailyMetrics where
  date : String
  activeUsers : ℚ
  engagedUsers : ℚ
  codeSuggestions : ℚ
  codeAcceptances : ℚ
  acceptanceRate : ℚ
  linesOfCodeSuggested : ℚ
  linesOfCodeAccepted : ℚ
  chatSessions : ℚ
  chatInsertions : ℚ
  prSummaries : ℚ
  deriving Repr, DecidableEq, Inhabited

/-- Report summary (`ReportSummary` in `types.ts`). -/
structure ReportSummary where
  totalActiveUsers : ℚ
  totalEngagedUsers : ℚ
  peakActiveUsers : ℚ
  peakActiveUsersDate : String
  avgDailyActiveUsers : ℚ
  totalCodeSuggestions : ℚ
  totalCodeAcceptances : ℚ
  acceptanceRate : ℚ
  totalLinesOfCodeSuggested : ℚ
  totalLinesOfCodeAccepted : ℚ
  totalChats : ℚ
  totalChatInsertions : ℚ
  totalChatCopyEvents : ℚ
  totalPrSummaries : ℚ
  deriving Repr, DecidableEq

/-- Per-language rollup (`LanguageBreakdown` in `types.ts`). -/
structure LanguageBreakdown where
  language : String
  engagedUsers : ℚ
  suggestions : ℚ
  acceptances : ℚ
  acceptanceRate : ℚ
  linesSuggested : ℚ
  linesAccepted : ℚ
  deriving Repr, DecidableEq

/-- Per-editor rollup (`EditorBreakdown` in `types.ts`). -/
structure EditorBreakdown where
  editor : String
  engagedUsers : ℚ
  chatSessions : ℚ
  deriving Repr, DecidableEq

/-- One point of a trend series (`TrendDataPoint`). -/
structure TrendDataPoint where
  date : String
  value : ℚ
  deriving Repr, DecidableEq

/-- The three trend series (`TrendData`). -/
structure TrendData where
  activeUsersTrend : List TrendDataPoint
  acceptanceRateTrend : List TrendDataPoint
  suggestionsVolumeTrend : List TrendDataPoint
  deriving Repr, DecidableEq

-- =============================================================================
-- Helpers: the nested arrays a day's aggregation iterates over
-- =============================================================================

/-- The `languages` array iterated by the code-completion loops
(`day.copilot_ide_code_completions?.languages`); absent means no iteration. -/
def langsOf (day : CopilotUsageMetrics) : List LanguageMetrics :=
  (day.copilot_ide_code_completions.bind IdeCodeCompletions.languages).getD []

/-- All chat models reached by the nested IDE-chat loops
(`day.copilot_ide_chat?.editors`, then `editor.models`). -/
def ideChatModelsOf (day : CopilotUsageMetrics) : List ChatModelMetrics :=
  (((day.copilot_ide_chat.bind IdeChatMetrics.editors).getD []).map
    (fun e => e.models.getD [])).flatten

/-- The dotcom chat models (`day.copilot_dotcom_chat?.models`). -/
def dotcomChatModelsOf (day : CopilotUsageMetrics) : List ChatModelMetrics :=
  (day.copilot_dotcom_chat.bind DotcomChatMetrics.models).getD []

/-- All PR models reached by the nested pull-request loops. -/
def prModelsOf (day : CopilotUsageMetrics) : List PullRequestModelMetrics :=
  (((day.copilot_dotcom_pull_requests.bind PullRequestMetrics.repositories).getD []).map
    (fun r => r.models.getD [])).flatten

-- =============================================================================
-- ReportGenerator.buildSummary
-- =============================================================================

/-- Mutable accumulators of the `buildSummary` loop. -/
structure SummaryAcc where
  totalActiveUsers : ℚ
  totalEngagedUsers : ℚ
  peakActiveUsers : ℚ
  peakActiveUsersDate : String
  totalCodeSuggestions : ℚ
  totalCodeAcceptances : ℚ
  totalLinesOfCodeSuggested : ℚ
  totalLinesOfCodeAccepted : ℚ
  totalChats : ℚ
  totalChatInsertions : ℚ
  totalChatCopyEvents : ℚ
  totalPrSummaries : ℚ
  deriving Repr, DecidableEq

/-- Initial accumulator values of `buildSummary`. -/
def initSummaryAcc : SummaryAcc :=
  { totalActiveUsers := 0, totalEngagedUsers := 0
    peakActiveUsers := 0, peakActiveUsersDate := ""
    totalCodeSuggestions := 0, totalCodeAcceptances := 0
    totalLinesOfCodeSuggested := 0, totalLinesOfCodeAccepted := 0
    totalChats := 0, totalChatInsertions := 0, totalChatCopyEvents := 0
    totalPrSummaries := 0 }

/-- One iteration of the `for (const day of metrics)` loop in `buildSummary`. -/
def summaryStep (acc : SummaryAcc) (day : CopilotUsageMetrics) : SummaryAcc :=
  { totalActiveUsers := max acc.totalActiveUsers day.total_active_users
    totalEngagedUsers := max acc.totalEngagedUsers day.total_engaged_users
    peakActiveUsers :=
      if day.total_active_users > acc.peakActiveUsers then day.total_active_users
      else acc.peakActiveUsers
    peakActiveUsersDate :=
      if day.total_active_users > acc.peakActiveUsers then day.date
      else acc.peakActiveUsersDate
    totalCodeSuggestions :=
      (langsOf day).foldl (fun s l => s + l.total_code_suggestions)
        acc.totalCodeSuggestions
    totalCodeAcceptances :=
      (langsOf day).foldl (fun s l => s + l.total_code_acceptances)
        acc.totalCodeAcceptances
    totalLinesOfCodeSuggested :=
      (langsOf day).foldl (fun s l => s + l.total_code_lines_suggested)
        acc.totalLinesOfCodeSuggested
    totalLinesOfCodeAccepted :=
      (langsOf day).foldl (fun s l => s + l.total_code_lines_accepted)
        acc.totalLinesOfCodeAccepted
    totalChats :=
      (dotcomChatModelsOf day).foldl (fun s m => s + m.total_chats)
        ((ideChatModelsOf day).foldl (fun s m => s + m.total_chats) acc.totalChats)
    totalChatInsertions :=
      (dotcomChatModelsOf day).foldl (fun s m => s + m.total_chat_insertion_events)
        ((ideChatModelsOf day).foldl (fun s m => s + m.total_chat_insertion_events)
          acc.totalChatInsertions)
    totalChatCopyEvents :=
      (dotcomChatModelsOf day).foldl (fun s m => s + m.total_chat_copy_events)
        ((ideChatModelsOf day).foldl (fun s m => s + m.total_chat_copy_events)
          acc.totalChatCopyEvents)
    totalPrSummaries :=
      (prModelsOf day).foldl (fun s m => s + m.total_pr_summaries_created)
        acc.totalPrSummaries }

/-- `ReportGenerator.buildSummary`: aggregate all daily metrics into the
report summary, then derive average daily active users and acceptance rate. -/
def buildSummary (metrics : List CopilotUsageMetrics) : ReportSummary :=
  let acc := metrics.foldl summaryStep initSummaryAcc
  let avgDailyActiveUsers : ℚ :=
    if metrics.length > 0 then
      (metrics.foldl (fun s m => s + m.total_active_users) 0) / metrics.length
    else 0
  let acceptanceRate : ℚ :=
    if acc.totalCodeSuggestions > 0 then
      acc.totalCodeAcceptances / acc.totalCodeSuggestions * 100
    else 0
  { totalActiveUsers := acc.totalActiveUsers
    totalEngagedUsers := acc.totalEngagedUsers
    peakActiveUsers := acc.peakActiveUsers
    peakActiveUsersDate := acc.peakActiveUsersDate
    avgDailyActiveUsers := round2 avgDailyActiveUsers
    totalCodeSuggestions := acc.totalCodeSuggestions
    totalCodeAcceptances := acc.totalCodeAcceptances
    acceptanceRate := round2 acceptanceRate
    totalLinesOfCodeSuggested := acc.totalLinesOfCodeSuggested
    totalLinesOfCodeAccepted := acc.totalLinesOfCodeAccepted
    totalChats := acc.totalChats
    totalChatInsertions := acc.totalChatInsertions
    totalChatCopyEvents := acc.totalChatCopyEvents
    totalPrSummaries := acc.totalPrSummaries }

-- =============================================================================
-- ReportGenerator.buildDailyMetrics
-- =============================================================================

/-- The body of the `metrics.map` in `buildDailyMetrics`: flatten one day's
nested structure into a `DailyMetrics` entry. -/
def dailyOf (day : CopilotUsageMetrics) : DailyMetrics :=
  let codeSuggestions :=
      (langsOf day).foldl (fun s l => s + l.total_code_suggestions) 0
    let codeAcceptances :=
      (langsOf day).foldl (fun s l => s + l.total_code_acceptances) 0
    let linesOfCodeSuggested :=
      (langsOf day).foldl (fun s l => s + l.total_code_lines_suggested) 0
    let linesOfCodeAccepted :=
      (langsOf day).foldl (fun s l => s + l.total_code_lines_accepted) 0
    let chatSessions :=
      (dotcomChatModelsOf day).foldl (fun s m => s + m.total_chats)
        ((ideChatModelsOf day).foldl (fun s m => s + m.total_chats) 0)
    let chatInsertions :=
      (dotcomChatModelsOf day).foldl (fun s m => s + m.total_chat_insertion_events)
        ((ideChatModelsOf day).foldl
          (fun s m => s + m.total_chat_insertion_events) 0)
    let prSummaries :=
      (prModelsOf day).foldl (fun s m => s + m.total_pr_summaries_created) 0
    let acceptanceRate : ℚ :=
      if codeSuggestions > 0 then codeAcceptances / codeSuggestions * 100 else 0
    { date := day.date
      activeUsers := day.total_active_users
      engagedUsers := day.total_engaged_users
      codeSuggestions := codeSuggestions
      codeAcceptances := codeAcceptances
      acceptanceRate := round2 acceptanceRate
      linesOfCodeSuggested := linesOfCodeSuggested
      linesOfCodeAccepted := linesOfCodeAccepted
      chatSessions := chatSessions
      chatInsertions := chatInsertions
      prSummaries := prSummaries }

/-- `ReportGenerator.buildDailyMetrics`: flatten each day's nested structure
into a `DailyMetrics` entry (a `map` over the input, in input order). -/
def buildDailyMetrics (metrics : List CopilotUsageMetrics) : List DailyMetrics :=
  metrics.map dailyOf

-- =============================================================================
-- Stable descending sort (JS `Array.prototype.sort` with a `b.key - a.key`
-- comparator; ES2019 guarantees stability)
-- =============================================================================

/-- Insert `x` into `l`, passing over elements whose key is strictly greater:
with a descending order this places `x` before elements of equal key, which is
exactly where a stable sort puts a later-arriving element. -/
def insertDescBy (key : α → ℚ) (x : α) : List α → List α
  | [] => [x]
  | h :: t => if key x < key h then h :: insertDescBy key x t else x :: h :: t

/-- Stable insertion sort, descending by `key`: the unique sorted, stable
permutation, which is what the JS engine's stable sort produces. -/
def sortDescBy (key : α → ℚ) : List α → List α
  | [] => []
  | x :: xs => insertDescBy key x (sortDescBy key xs)

-- =============================================================================
-- ReportGenerator.buildLanguageBreakdown
-- =============================================================================

/-- The `languageMap.set`/update step for one language entry: a JS `Map`
keeps insertion order, updating an existing key in place. The map is
modelled as the list of its values in insertion order (names are unique
by construction). -/
def updateLang (m : List LanguageMetrics) (lang : LanguageMetrics) :
    List LanguageMetrics :=
  match m with
  | [] => [lang]
  | e :: t =>
    if e.name = lang.name then
      { e with
        total_engaged_users := max e.total_engaged_users lang.total_engaged_users
        total_code_suggestions :=
          e.total_code_suggestions + lang.total_code_suggestions
        total_code_acceptances :=
          e.total_code_acceptances + lang.total_code_acceptances
        total_code_lines_suggested :=
          e.total_code_lines_suggested + lang.total_code_lines_suggested
        total_code_lines_accepted :=
          e.total_code_lines_accepted + lang.total_code_lines_accepted } :: t
    else e :: updateLang t lang

/-- The accumulation phase of `buildLanguageBreakdown`: fold every language
entry of every day into the per-language map, in first-seen order. -/
def accLangs (metrics : List CopilotUsageMetrics) : List LanguageMetrics :=
  metrics.foldl (fun m day => (langsOf day).foldl updateLang m) []

/-- The projection of one accumulated language entry to a breakdown row,
with the zero-guarded acceptance rate. -/
def langToBreakdown (lang : LanguageMetrics) : LanguageBreakdown :=
  let acceptanceRate : ℚ :=
    if lang.total_code_suggestions > 0 then
      lang.total_code_acceptances / lang.total_code_suggestions * 100
    else 0
  { language := lang.name
    engagedUsers := lang.total_engaged_users
    suggestions := lang.total_code_suggestions
    acceptances := lang.total_code_acceptances
    acceptanceRate := round2 acceptanceRate
    linesSuggested := lang.total_code_lines_suggested
    linesAccepted := lang.total_code_lines_accepted }

/-- `ReportGenerator.buildLanguageBreakdown`: accumulate per language, derive
rates, sort descending by suggestions (stable). -/
def buildLanguageBreakdown (metrics : List CopilotUsageMetrics) :
    List LanguageBreakdown :=
  sortDescBy LanguageBreakdown.suggestions ((accLangs metrics).map langToBreakdown)

-- =============================================================================
-- ReportGenerator.buildEditorBreakdown
-- =============================================================================

/-- Value type of the editor map: `{ engagedUsers, chatSessions }`. -/
structure EditorAccEntry where
  name : String
  engagedUsers : ℚ
  chatSessions : ℚ
  deriving Repr, DecidableEq

/-- Update from a code-completions `editors` entry: max the engaged users of
an existing bucket, or create one with zero chat sessions. -/
def updateEditorCompletions (m : List EditorAccEntry) (e : EditorMetrics) :
    List EditorAccEntry :=
  match m with
  | [] => [{ name := e.name, engagedUsers := e.total_engaged_users, chatSessions := 0 }]
  | b :: t =>
    if b.name = e.name then
      { b with engagedUsers := max b.engagedUsers e.total_engaged_users } :: t
    else b :: updateEditorCompletions t e

/-- Update from an IDE-chat `editors` entry: max engaged users and add the
sum of the editor's chat-model `total_chats`, or create a new bucket. -/
def updateEditorChat (m : List EditorAccEntry) (e : EditorChatMetrics) :
    List EditorAccEntry :=
  let chatSessions := (e.models.getD []).foldl (fun s md => s + md.total_chats) 0
  match m with
  | [] => [{ name := e.name, engagedUsers := e.total_engaged_users,
             chatSessions := chatSessions }]
  | b :: t =>
    if b.name = e.name then
      { b with engagedUsers := max b.engagedUsers e.total_engaged_users
               chatSessions := b.chatSessions + chatSessions } :: t
    else b :: updateEditorChat t e

/-- The accumulation phase of `buildEditorBreakdown`: per day, first the
code-completions editors, then the IDE-chat editors. -/
def accEditors (metrics : List CopilotUsageMetrics) : List EditorAccEntry :=
  metrics.foldl (fun m day =>
    let m1 := ((day.copilot_ide_code_completions.bind
      IdeCodeCompletions.editors).getD []).foldl updateEditorCompletions m
    ((day.copilot_ide_chat.bind IdeChatMetrics.editors).getD []).foldl
      updateEditorChat m1) []

/-- `ReportGenerator.buildEditorBreakdown`: accumulate per editor name and
sort descending by engaged users (stable). -/
def buildEditorBreakdown (metrics : List CopilotUsageMetrics) :
    List EditorBreakdown :=
  sortDescBy EditorBreakdown.engagedUsers
    ((accEditors metrics).map (fun b =>
      { editor := b.name, engagedUsers := b.engagedUsers
        chatSessions := b.chatSessions }))

-- =============================================================================
-- ReportGenerator.buildTrends
-- =============================================================================

/-- `ReportGenerator.buildTrends`: extract the three time series from the
daily metrics. -/
def buildTrends (dailyMetrics : List DailyMetrics) : TrendData :=
  { activeUsersTrend :=
      dailyMetrics.map (fun d => { date := d.date, value := d.activeUsers })
    acceptanceRateTrend :=
      dailyMetrics.map (fun d => { date := d.date, value := d.acceptanceRate })
    suggestionsVolumeTrend :=
      dailyMetrics.map (fun d => { date := d.date, value := d.codeSuggestions }) }

-- =============================================================================
-- Validator (`schemas.ts`): Zod schemas over untrusted JSON values
-- =============================================================================

/-- Untrusted JSON-like input values (`unknown` in TypeScript). A missing
object key models `undefined`; `Json.null` models an explicit `null`. -/
inductive Json where
  | null : Json
  | bool : Bool → Json
  | num : ℚ → Json
  | str : String → Json
  | arr : List Json → Json
  | obj : List (String × Json) → Json

/-- Look up a key in a JSON object (first occurrence). -/
def jget (o : List (String × Json)) (k : String) : Option Json :=
  (o.find? (fun p => p.1 == k)).map (fun p => p.2)

/-- Explicit `Except` sequencing (the monadic bind, kept as a plain match). -/
def exBind (x : Except String α) (f : α → Except String β) : Except String β :=
  match x with
  | .error e => .error e
  | .ok a => f a

/-- `z.number().default(0)`: missing means 0, a present non-number fails. -/
def expectNumD (o : List (String × Json)) (k : String) : Except String ℚ :=
  match jget o k with
  | none => .ok 0
  | some (.num q) => .ok q
  | some _ => .error (k ++ ": Expected number")

/-- `z.number().optional()`: missing means `none`, non-number fails. -/
def expectNumOpt (o : List (String × Json)) (k : String) :
    Except String (Option ℚ) :=
  match jget o k with
  | none => .ok none
  | some (.num q) => .ok (some q)
  | some _ => .error (k ++ ": Expected number")

/-- `z.boolean().default(false)`. -/
def expectBoolD (o : List (String × Json)) (k : String) : Except String Bool :=
  match jget o k with
  | none => .ok false
  | some (.bool b) => .ok b
  | some _ => .error (k ++ ": Expected boolean")

/-- `z.string()` (required, no coercion). -/
def expectStrReq (o : List (String × Json)) (k : String) : Except String String :=
  match jget o k with
  | none => .error (k ++ ": Required")
  | some (.str s) => .ok s
  | some _ => .error (k ++ ": Expected string")

/-- `z.string().nullish()`: missing or null are accepted (and dropped by the
aggregation), any other non-string fails. -/
def expectStrNullish (o : List (String × Json)) (k : String) :
    Except String (Option String) :=
  match jget o k with
  | none => .ok none
  | some .null => .ok none
  | some (.str s) => .ok (some s)
  | some _ => .error (k ++ ": Expected string")

/-- Parse every element of a list, failing if any element fails (Zod array
semantics: the parse succeeds exactly when all items succeed). -/
def mapE (p : Json → Except String α) : List Json → Except String (List α)
  | [] => .ok []
  | x :: xs =>
    match p x with
    | .error e => .error e
    | .ok y =>
      match mapE p xs with
      | .error e => .error e
      | .ok ys => .ok (y :: ys)

/-- `z.array(schema).optional()` for an object field. -/
def expectArrOpt (p : Json → Except String α) (o : List (String × Json))
    (k : String) : Except String (Option (List α)) :=
  match jget o k with
  | none => .ok none
  | some (.arr xs) =>
    match mapE p xs with
    | .error e => .error e
    | .ok ys => .ok (some ys)
  | some _ => .error (k ++ ": Expected array")

/-- `schema.optional()` for a nested object section. -/
def expectSectionOpt (p : Json → Except String α) (o : List (String × Json))
    (k : String) : Except String (Option α) :=
  match jget o k with
  | none => .ok none
  | some v =>
    match p v with
    | .error e => .error e
    | .ok a => .ok (some a)

/-- `LanguageMetricsSchema`. -/
def parseLanguage (j : Json) : Except String LanguageMetrics :=
  match j with
  | .obj o =>
    exBind (expectStrReq o "name") fun name =>
    exBind (expectNumD o "total_engaged_users") fun teu =>
    exBind (expectNumD o "total_code_suggestions") fun sugg =>
    exBind (expectNumD o "total_code_acceptances") fun acc =>
    exBind (expectNumD o "total_code_lines_suggested") fun lsugg =>
    exBind (expectNumD o "total_code_lines_accepted") fun lacc =>
    .ok { name := name, total_engaged_users := teu,
          total_code_suggestions := sugg, total_code_acceptances := acc,
          total_code_lines_suggested := lsugg, total_code_lines_accepted := lacc }
  | _ => .error "Expected object"

/-- `ModelMetricsSchema`. -/
def parseModel (j : Json) : Except String ModelMetrics :=
  match j with
  | .obj o =>
    exBind (expectStrReq o "name") fun name =>
    exBind (expectBoolD o "is_custom_model") fun icm =>
    exBind (expectStrNullish o "custom_model_training_date") fun _ =>
    exBind (expectNumD o "total_engaged_users") fun teu =>
    exBind (expectArrOpt parseLanguage o "languages") fun langs =>
    exBind (expectNumOpt o "total_code_suggestions") fun sugg =>
    exBind (expectNumOpt o "total_code_acceptances") fun acc =>
    exBind (expectNumOpt o "total_code_lines_suggested") fun lsugg =>
    exBind (expectNumOpt o "total_code_lines_accepted") fun lacc =>
    .ok { name := name, is_custom_model := icm, total_engaged_users := teu,
          languages := langs, total_code_suggestions := sugg,
          total_code_acceptances := acc, total_code_lines_suggested := lsugg,
          total_code_lines_accepted := lacc }
  | _ => .error "Expected object"

/-- `EditorMetricsSchema`. -/
def parseEditor (j : Json) : Except String EditorMetrics :=
  match j with
  | .obj o =>
    exBind (expectStrReq o "name") fun name =>
    exBind (expectNumD o "total_engaged_users") fun teu =>
    exBind (expectArrOpt parseModel o "models") fun models =>
    .ok { name := name, total_engaged_users := teu, models := models }
  | _ => .error "Expected object"

/-- `IdeCodeCompletionsSchema`. -/
def parseIdeCompletions (j : Json) : Except String IdeCodeCompletions :=
  match j with
  | .obj o =>
    exBind (expectNumD o "total_engaged_users") fun teu =>
    exBind (expectArrOpt parseLanguage o "languages") fun langs =>
    exBind (expectArrOpt parseEditor o "editors") fun editors =>
    exBind (expectArrOpt parseModel o "models") fun models =>
    .ok { total_engaged_users := teu, languages := langs,
          editors := editors, models := models }
  | _ => .error "Expected object"

/-- `ChatModelMetricsSchema`. -/
def parseChatModel (j : Json) : Except String ChatModelMetrics :=
  match j with
  | .obj o =>
    exBind (expectStrReq o "name") fun name =>
    exBind (expectBoolD o "is_custom_model") fun icm =>
    exBind (expectStrNullish o "custom_model_training_date") fun _ =>
    exBind (expectNumD o "total_engaged_users") fun teu =>
    exBind (expectNumD o "total_chats") fun chats =>
    exBind (expectNumD o "total_chat_insertion_events") fun ins =>
    exBind (expectNumD o "total_chat_copy_events") fun cp =>
    .ok { name := name, is_custom_model := icm, total_engaged_users := teu,
          total_chats := chats, total_chat_insertion_events := ins,
          total_chat_copy_events := cp }
  | _ => .error "Expected object"

/-- `EditorChatMetricsSchema`. -/
def parseEditorChat (j : Json) : Except String EditorChatMetrics :=
  match j with
  | .obj o =>
    exBind (expectStrReq o "name") fun name =>
    exBind (expectNumD o "total_engaged_users") fun teu =>
    exBind (expectArrOpt parseChatModel o "models") fun models =>
    .ok { name := name, total_engaged_users := teu, models := models }
  | _ => .error "Expected object"

/-- `IdeChatMetricsSchema`. -/
def parseIdeChat (j : Json) : Except String IdeChatMetrics :=
  match j with
  | .obj o =>
    exBind (expectNumD o "total_engaged_users") fun teu =>
    exBind (expectArrOpt parseEditorChat o "editors") fun editors =>
    .ok { total_engaged_users := teu, editors := editors }
  | _ => .error "Expected object"

/-- `DotcomChatMetricsSchema`. -/
def parseDotcomChat (j : Json) : Except String DotcomChatMetrics :=
  match j with
  | .obj o =>
    exBind (expectNumD o "total_engaged_users") fun teu =>
    exBind (expectArrOpt parseChatModel o "models") fun models =>
    .ok { total_engaged_users := teu, models := models }
  | _ => .error "Expected object"

/-- `PullRequestModelMetricsSchema`. -/
def parsePrModel (j : Json) : Except String PullRequestModelMetrics :=
  match j with
  | .obj o =>
    exBind (expectStrReq o "name") fun name =>
    exBind (expectBoolD o "is_custom_model") fun icm =>
    exBind (expectStrNullish o "custom_model_training_date") fun _ =>
    exBind (expectNumD o "total_pr_summaries_created") fun prs =>
    exBind (expectNumD o "total_engaged_users") fun teu =>
    .ok { name := name, is_custom_model := icm,
          total_pr_summaries_created := prs, total_engaged_users := teu }
  | _ => .error "Expected object"

/-- `RepositoryMetricsSchema`. -/
def parseRepository (j : Json) : Except String RepositoryMetrics :=
  match j with
  | .obj o =>
    exBind (expectStrReq o "name") fun name =>
    exBind (expectNumD o "total_engaged_users") fun teu =>
    exBind (expectArrOpt parsePrModel o "models") fun models =>
    .ok { name := name, total_engaged_users := teu, models := models }
  | _ => .error "Expected object"

/-- `PullRequestMetricsSchema`. -/
def parsePullRequests (j : Json) : Except String PullRequestMetrics :=
  match j with
  | .obj o =>
    exBind (expectNumD o "total_engaged_users") fun teu =>
    exBind (expectArrOpt parseRepository o "repositories") fun repos =>
    .ok { total_engaged_users := teu, repositories := repos }
  | _ => .error "Expected object"

/-- `CopilotUsageMetricsSchema`: one day of raw metrics. `date` is the only
required field; all other known fields are defaulted or optional, unknown
fields pass through unchecked. -/
def parseDay (j : Json) : Except String CopilotUsageMetrics :=
  match j with
  | .obj o =>
    exBind (expectStrReq o "date") fun date =>
    exBind (expectNumD o "total_active_users") fun tau =>
    exBind (expectNumD o "total_engaged_users") fun teu =>
    exBind (expectSectionOpt parseIdeCompletions o "copilot_ide_code_completions")
      fun comp =>
    exBind (expectSectionOpt parseIdeChat o "copilot_ide_chat") fun ideChat =>
    exBind (expectSectionOpt parseDotcomChat o "copilot_dotcom_chat") fun dotcom =>
    exBind (expectSectionOpt parsePullRequests o "copilot_dotcom_pull_requests")
      fun prs =>
    .ok { date := date, total_active_users := tau, total_engaged_users := teu,
          copilot_ide_code_completions := comp, copilot_ide_chat := ideChat,
          copilot_dotcom_chat := dotcom, copilot_dotcom_pull_requests := prs }
  | _ => .error "Expected object"

/-- Result of `validateMetricsResponse` (`ValidationResult` in `schemas.ts`). -/
structure ValidationResult where
  success : Bool
  data : Option (List CopilotUsageMetrics)
  errors : List String
  warnings : List String
  deriving Repr

/-- `validateMetricsResponse`: safe-parse the whole response array; on success
attach the empty-array and zero-activity warnings, on failure report errors. -/
def validateMetricsResponse (j : Json) : ValidationResult :=
  match j with
  | .arr xs =>
    match mapE parseDay xs with
    | .ok data =>
      let emptyWarning : List String :=
        if data.length = 0 then
          ["API returned empty metrics array - date range may have no data"]
        else []
      let zeroDays := data.filter (fun d => decide (d.total_active_users = 0))
      let zeroWarning : List String :=
        if 0 < zeroDays.length ∧ zeroDays.length < data.length then
          [toString zeroDays.length ++ " day(s) have zero active users"]
        else []
      { success := true, data := some data, errors := [],
        warnings := emptyWarning ++ zeroWarning }
    | .error e =>
      { success := false, data := none, errors := [e], warnings := [] }
  | _ =>
    { success := false, data := none,
      errors := ["Expected array, received something else"], warnings := [] }

-- =============================================================================
-- Cache (`github-client.ts`): in-memory map with TTL, lazy expiry on read
-- =============================================================================

/-- `CacheEntry<T>` from `types.ts`, instantiated at the metrics array.
Times are in milliseconds since the epoch, as `Date.now()` returns. -/
structure CacheEntry where
  data : List CopilotUsageMetrics
  timestamp : ℚ
  expiresAt : ℚ
  deriving Repr, DecidableEq

/-- The JS `Map`-backed cache, as its entries in insertion order (keys are
unique: `Map.set` replaces in place). -/
abbrev CacheMap := List (String × CacheEntry)

/-- `getCacheKey`: the exact key format of the client. -/
def getCacheKey (ty slug dfrom dto : String) : String :=
  ty ++ ":" ++ slug ++ ":" ++ dfrom ++ ":" ++ dto

/-- `GitHubApiClient.getFromCache`, with the current time passed explicitly:
returns the hit (or `none`) and the possibly-updated cache (an expired entry
is deleted as a side effect of the read). -/
def getFromCache (key : String) (now : ℚ) (c : CacheMap) :
    Option (List CopilotUsageMetrics) × CacheMap :=
  match c.find? (fun p => p.1 == key) with
  | none => (none, c)
  | some (_, e) =>
    if now > e.expiresAt then (none, c.filter (fun p => p.1 != key))
    else (some e.data, c)

/-- `GitHubApiClient.setCache`: store with `expiresAt = now + TTL`,
overwriting any prior entry for the key. -/
def setCache (key : String) (data : List CopilotUsageMetrics) (now ttl : ℚ)
    (c : CacheMap) : CacheMap :=
  let e : CacheEntry := { data := data, timestamp := now, expiresAt := now + ttl }
  if c.any (fun p => p.1 == key) then
    c.map (fun p => if p.1 == key then (key, e) else p)
  else c ++ [(key, e)]

-- =============================================================================
-- Mock report summary (`generateMockReport`, summary-statistics part)
-- =============================================================================

/-- `Math.max(...l)` for a nonempty list (the only way the mock uses it). -/
def jsMaxList (l : List ℚ) : ℚ :=
  match l with
  | [] => 0
  | h :: t => t.foldl max h

/-- The mock's peak-day reduction: `reduce` with the first element as the
initial accumulator, keeping the first day on ties (strict `>` update). -/
def mockPeakDay (dm : List DailyMetrics) : DailyMetrics :=
  dm.foldl (fun mx d => if d.activeUsers > mx.activeUsers then d else mx)
    (dm.headD default)

/-- The summary-statistics block of `generateMockReport` (lines computing
`summary` from the synthetic `dailyMetrics`); `days` is the number of calendar
days of the requested range, used as the average's divisor. -/
def mockSummary (dm : List DailyMetrics) (days : ℚ) : ReportSummary :=
  let totalSuggestions := dm.foldl (fun s d => s + d.codeSuggestions) 0
  let totalAcceptances := dm.foldl (fun s d => s + d.codeAcceptances) 0
  let peakDay := mockPeakDay dm
  let totalLinesAccepted := dm.foldl (fun s d => s + d.linesOfCodeAccepted) 0
  let totalLinesSuggested := dm.foldl (fun s d => s + d.linesOfCodeSuggested) 0
  let totalInsertions := dm.foldl (fun s d => s + d.chatInsertions) 0
  { totalActiveUsers := jsMaxList (dm.map DailyMetrics.activeUsers)
    totalEngagedUsers := jsMaxList (dm.map DailyMetrics.engagedUsers)
    peakActiveUsers := peakDay.activeUsers
    peakActiveUsersDate := peakDay.date
    avgDailyActiveUsers :=
      mathRound ((dm.foldl (fun s d => s + d.activeUsers) 0) / days)
    totalCodeSuggestions := totalSuggestions
    totalCodeAcceptances := totalAcceptances
    acceptanceRate := mathRound (totalAcceptances / totalSuggestions * 10000) / 100
    totalLinesOfCodeSuggested := totalLinesSuggested
    totalLinesOfCodeAccepted := totalLinesAccepted
    totalChats := dm.foldl (fun s d => s + d.chatSessions) 0
    totalChatInsertions := totalInsertions
    totalChatCopyEvents := mathFloor (totalInsertions * (42 / 100))
    totalPrSummaries := dm.foldl (fun s d => s + d.prSummaries) 0 }

/-- Formalised from the spec's words (§4.1, avgDailyActiveUsers): arithmetic
mean over all days, 0 when empty, rounded to 2 decimal places. Used only to
compare the mock generator's summary against the aggregator's formula. -/
def specAvgDailyActiveUsers (dm : List DailyMetrics) : ℚ :=
  if dm.length > 0 then
    round2 ((dm.map DailyMetrics.activeUsers).sum / dm.length)
  else 0

/-- Formalised from the spec's words (§4.1, acceptanceRate): zero-guarded
percentage rounded to 2 decimal places. -/
def specAcceptanceRate (sugg acc : ℚ) : ℚ :=
  if sugg > 0 then round2 (100 * acc / sugg) else 0

-- =============================================================================
-- Derived per-day quantities (used to state the aggregation theorems)
-- =============================================================================

/-- A day's total code suggestions, read from the `languages` array. -/
def daySuggestions (day : CopilotUsageMetrics) : ℚ :=
  ((langsOf day).map LanguageMetrics.total_code_suggestions).sum

/-- A day's total code acceptances, read from the `languages` array. -/
def dayAcceptances (day : CopilotUsageMetrics) : ℚ :=
  ((langsOf day).map LanguageMetrics.total_code_acceptances).sum

/-- A day's total lines of code suggested. -/
def dayLinesSuggested (day : CopilotUsageMetrics) : ℚ :=
  ((langsOf day).map LanguageMetrics.total_code_lines_suggested).sum

/-- A day's total lines of code accepted. -/
def dayLinesAccepted (day : CopilotUsageMetrics) : ℚ :=
  ((langsOf day).map LanguageMetrics.total_code_lines_accepted).sum

/-- A day's IDE-chat model chats. -/
def dayIdeChats (day : CopilotUsageMetrics) : ℚ :=
  ((ideChatModelsOf day).map ChatModelMetrics.total_chats).sum

/-- A day's dotcom-chat model chats. -/
def dayDotcomChats (day : CopilotUsageMetrics) : ℚ :=
  ((dotcomChatModelsOf day).map ChatModelMetrics.total_chats).sum

/-- A day's combined chats from both chat sections. -/
def dayChats (day : CopilotUsageMetrics) : ℚ :=
  dayIdeChats day + dayDotcomChats day

/-- A day's combined chat insertion events from both chat sections. -/
def dayChatInsertions (day : CopilotUsageMetrics) : ℚ :=
  ((ideChatModelsOf day).map ChatModelMetrics.total_chat_insertion_events).sum +
  ((dotcomChatModelsOf day).map ChatModelMetrics.total_chat_insertion_events).sum

/-- A day's combined chat copy events from both chat sections. -/
def dayChatCopyEvents (day : CopilotUsageMetrics) : ℚ :=
  ((ideChatModelsOf day).map ChatModelMetrics.total_chat_copy_events).sum +
  ((dotcomChatModelsOf day).map ChatModelMetrics.total_chat_copy_events).sum

/-- A day's PR summaries created. -/
def dayPrSummaries (day : CopilotUsageMetrics) : ℚ :=
  ((prModelsOf day).map PullRequestModelMetrics.total_pr_summaries_created).sum

/-- The peak-tracking step of `buildSummary`, on the (value, date) pair. -/
def peakStepPair (mx : ℚ × String) (d : CopilotUsageMetrics) : ℚ × String :=
  if d.total_active_users > mx.1 then (d.total_active_users, d.date) else mx

-- =============================================================================
-- Concrete example inputs (for witnesses and counterexamples)
-- =============================================================================

/-- TypeScript language entry, day one of the demo scenario. -/
def demoLang1 : LanguageMetrics :=
  { name := "TypeScript", total_engaged_users := 10,
    total_code_suggestions := 5000, total_code_acceptances := 1650,
    total_code_lines_suggested := 9000, total_code_lines_accepted := 3000 }

/-- TypeScript language entry, day two of the demo scenario. -/
def demoLang2 : LanguageMetrics :=
  { name := "TypeScript", total_engaged_users := 12,
    total_code_suggestions := 5500, total_code_acceptances := 1870,
    total_code_lines_suggested := 9900, total_code_lines_accepted := 3400 }

/-- Day one of the two-day demo scenario. -/
def demoDay1 : CopilotUsageMetrics :=
  { date := "2026-01-15", total_active_users := 150, total_engaged_users := 100,
    copilot_ide_code_completions :=
      some { total_engaged_users := 100, languages := some [demoLang1],
             editors := none, models := none }
    copilot_ide_chat := none, copilot_dotcom_chat := none
    copilot_dotcom_pull_requests := none }

/-- Day two of the two-day demo scenario. -/
def demoDay2 : CopilotUsageMetrics :=
  { date := "2026-01-16", total_active_users := 162, total_engaged_users := 110,
    copilot_ide_code_completions :=
      some { total_engaged_users := 110, languages := some [demoLang2],
             editors := none, models := none }
    copilot_ide_chat := none, copilot_dotcom_chat := none
    copilot_dotcom_pull_requests := none }

/-- A single valid day reporting zero active users. -/
def zeroDay : CopilotUsageMetrics :=
  { date := "2024-01-01", total_active_users := 0, total_engaged_users := 0,
    copilot_ide_code_completions := none, copilot_ide_chat := none,
    copilot_dotcom_chat := none, copilot_dotcom_pull_requests := none }

/-- A day whose IDE-chat and dotcom-chat sections each report 10 chats. -/
def chatDay : CopilotUsageMetrics :=
  { date := "2026-02-01", total_active_users := 50, total_engaged_users := 40,
    copilot_ide_code_completions := none
    copilot_ide_chat :=
      some { total_engaged_users := 30,
             editors := some
               [{ name := "VS Code", total_engaged_users := 30,
                  models := some
                    [{ name := "default", is_custom_model := false,
                       total_engaged_users := 30, total_chats := 10,
                       total_chat_insertion_events := 4,
                       total_chat_copy_events := 2 }] }] }
    copilot_dotcom_chat :=
      some { total_engaged_users := 20,
             models := some
               [{ name := "default", is_custom_model := false,
                  total_engaged_users := 20, total_chats := 10,
                  total_chat_insertion_events := 3,
                  total_chat_copy_events := 1 }] }
    copilot_dotcom_pull_requests := none }

/-- A day whose code-completions section has `editors` and `models` arrays
carrying completion numbers, but no `languages` array. -/
def editorsOnlyDay : CopilotUsageMetrics :=
  { date := "2026-03-01", total_active_users := 70, total_engaged_users := 60,
    copilot_ide_code_completions :=
      some { total_engaged_users := 60
             languages := none
             editors := some
               [{ name := "VS Code", total_engaged_users := 55,
                  models := some
                    [{ name := "default", is_custom_model := false,
                       total_engaged_users := 55, languages := none,
                       total_code_suggestions := some 4000,
                       total_code_acceptances := some 1200,
                       total_code_lines_suggested := some 8000,
                       total_code_lines_accepted := some 2500 }] }]
             models := some
               [{ name := "default", is_custom_model := false,
                  total_engaged_users := 60, languages := none,
                  total_code_suggestions := some 4100,
                  total_code_acceptances := some 1250,
                  total_code_lines_suggested := some 8100,
                  total_code_lines_accepted := some 2600 }] }
    copilot_ide_chat := none, copilot_dotcom_chat := none
    copilot_dotcom_pull_requests := none }

/-- A cache entry expiring at time 100. -/
def demoCacheEntry : CacheEntry :=
  { data := [zeroDay], timestamp := 0, expiresAt := 100 }

/-- A cache holding one entry under the documented key format. -/
def demoCache : CacheMap :=
  [(getCacheKey "enterprise" "acme" "2024-01-01" "2024-01-31", demoCacheEntry)]

/-- First synthetic daily entry for the mock-summary comparison. -/
def mockDm1 : DailyMetrics :=
  { date := "2026-01-01", activeUsers := 1, engagedUsers := 1,
    codeSuggestions := 100, codeAcceptances := 30, acceptanceRate := 30,
    linesOfCodeSuggested := 300, linesOfCodeAccepted := 90,
    chatSessions := 2, chatInsertions := 1, prSummaries := 0 }

/-- Second synthetic daily entry for the mock-summary comparison. -/
def mockDm2 : DailyMetrics :=
  { date := "2026-01-02", activeUsers := 2, engagedUsers := 2,
    codeSuggestions := 100, codeAcceptances := 30, acceptanceRate := 30,
    linesOfCodeSuggested := 300, linesOfCodeAccepted := 90,
    chatSessions := 4, chatInsertions := 10, prSummaries := 1 }

-- =============================================================================
-- Claim conclusion predicates (spelled out once, shared by theorem + witness)
-- =============================================================================

/-- Max/peak semantics of `buildSummary` (claim C2, as amended): the user
totals are attained maxima (not sums), the peak equals the active maximum,
and the peak date is the first day strictly exceeding all earlier days when
the maximum is positive, and the empty string when the maximum is 0. -/
def MaxPeakSummarySpec (metrics : List CopilotUsageMetrics) : Prop :=
  (∀ d ∈ metrics,
    d.total_active_users ≤ (buildSummary metrics).totalActiveUsers) ∧
  (∀ d ∈ metrics,
    d.total_engaged_users ≤ (buildSummary metrics).totalEngagedUsers) ∧
  (metrics ≠ [] → (buildSummary metrics).totalActiveUsers ∈
    metrics.map CopilotUsageMetrics.total_active_users) ∧
  (metrics ≠ [] → (buildSummary metrics).totalEngagedUsers ∈
    metrics.map CopilotUsageMetrics.total_engaged_users) ∧
  (buildSummary metrics).peakActiveUsers =
    (buildSummary metrics).totalActiveUsers ∧
  (metrics = [] → (buildSummary metrics).totalActiveUsers = 0 ∧
    (buildSummary metrics).totalEngagedUsers = 0 ∧
    (buildSummary metrics).peakActiveUsersDate = "") ∧
  (0 < (buildSummary metrics).peakActiveUsers →
    ∃ pre d post, metrics = pre ++ d :: post ∧
      d.total_active_users = (buildSummary metrics).peakActiveUsers ∧
      (buildSummary metrics).peakActiveUsersDate = d.date ∧
      ∀ e ∈ pre, e.total_active_users < d.total_active_users) ∧
  ((buildSummary metrics).peakActiveUsers = 0 →
    (buildSummary metrics).peakActiveUsersDate = "")

/-- Agreement of the mock summary with the aggregator formulas (claim C9, as
amended): totals are sums, user totals are attained maxima, the peak is the
first day attaining the maximum, the acceptance rate follows the aggregator
formula when suggestions are positive; deviations: the average is rounded to
an integer and copy events are 42% of insertions. -/
def MockSummaryFormulaSpec (dm : List DailyMetrics) : Prop :=
  (mockSummary dm dm.length).totalCodeSuggestions =
    (dm.map DailyMetrics.codeSuggestions).sum ∧
  (mockSummary dm dm.length).totalCodeAcceptances =
    (dm.map DailyMetrics.codeAcceptances).sum ∧
  (mockSummary dm dm.length).totalLinesOfCodeSuggested =
    (dm.map DailyMetrics.linesOfCodeSuggested).sum ∧
  (mockSummary dm dm.length).totalLinesOfCodeAccepted =
    (dm.map DailyMetrics.linesOfCodeAccepted).sum ∧
  (mockSummary dm dm.length).totalChats = (dm.map DailyMetrics.chatSessions).sum ∧
  (mockSummary dm dm.length).totalChatInsertions =
    (dm.map DailyMetrics.chatInsertions).sum ∧
  (mockSummary dm dm.length).totalPrSummaries =
    (dm.map DailyMetrics.prSummaries).sum ∧
  (∀ d ∈ dm, d.activeUsers ≤ (mockSummary dm dm.length).totalActiveUsers) ∧
  (mockSummary dm dm.length).totalActiveUsers ∈ dm.map DailyMetrics.activeUsers ∧
  (∀ d ∈ dm, d.engagedUsers ≤ (mockSummary dm dm.length).totalEngagedUsers) ∧
  (mockSummary dm dm.length).totalEngagedUsers ∈
    dm.map DailyMetrics.engagedUsers ∧
  (∃ pre d post, dm = pre ++ d :: post ∧
    (mockSummary dm dm.length).peakActiveUsers = d.activeUsers ∧
    (mockSummary dm dm.length).peakActiveUsersDate = d.date ∧
    (∀ e ∈ pre, e.activeUsers < d.activeUsers) ∧
    ∀ e ∈ dm, e.activeUsers ≤ d.activeUsers) ∧
  ((dm.map DailyMetrics.codeSuggestions).sum > 0 →
    (mockSummary dm dm.length).acceptanceRate =
      specAcceptanceRate (dm.map DailyMetrics.codeSuggestions).sum
        (dm.map DailyMetrics.codeAcceptances).sum) ∧
  (mockSummary dm dm.length).avgDailyActiveUsers =
    mathRound ((dm.map DailyMetrics.activeUsers).sum / dm.length) ∧
  (mockSummary dm dm.length).totalChatCopyEvents =
    mathFloor ((dm.map DailyMetrics.chatInsertions).sum * (42 / 100))

/-- Zero contribution of a languages-free day (claim C10): with no
`languages` array in the code-completions section, the day adds nothing to
the four completion totals and its daily entry reports zeros. -/
def ZeroCompletionContribution
    (pre post : List CopilotUsageMetrics) (day : CopilotUsageMetrics) : Prop :=
  (buildSummary (pre ++ day :: post)).totalCodeSuggestions =
    (buildSummary (pre ++ post)).totalCodeSuggestions ∧
  (buildSummary (pre ++ day :: post)).totalCodeAcceptances =
    (buildSummary (pre ++ post)).totalCodeAcceptances ∧
  (buildSummary (pre ++ day :: post)).totalLinesOfCodeSuggested =
    (buildSummary (pre ++ post)).totalLinesOfCodeSuggested ∧
  (buildSummary (pre ++ day :: post)).totalLinesOfCodeAccepted =
    (buildSummary (pre ++ post)).totalLinesOfCodeAccepted ∧
  buildDailyMetrics (pre ++ day :: post) =
    buildDailyMetrics pre ++ dailyOf day :: buildDailyMetrics post ∧
  (dailyOf day).codeSuggestions = 0 ∧
  (dailyOf day).codeAcceptances = 0 ∧
  (dailyOf day).linesOfCodeSuggested = 0 ∧
  (dailyOf day).linesOfCodeAccepted = 0

-- =============================================================================
-- Generic fold lemmas
-- =============================================================================

/-- An accumulate-by-addition fold is the start value plus the mapped sum. -/
theorem foldl_add_eq (f : α → ℚ) :
    ∀ (l : List α) (a : ℚ), l.foldl (fun s x => s + f x) a = a + (l.map f).sum := by
  intro l
  induction l with
  | nil => intro a; simp
  | cons h t ih =>
    intro a
    simp only [List.foldl_cons, List.map_cons, List.sum_cons, ih]
    ring

/-- The start value is a lower bound of a max-fold. -/
theorem le_foldl_max : ∀ (l : List ℚ) (a : ℚ), a ≤ l.foldl max a := by
  intro l
  induction l with
  | nil => intro a; simp
  | cons h t ih =>
    intro a
    exact le_trans (le_max_left a h) (ih (max a h))

/-- Every list element is a lower bound of a max-fold. -/
theorem mem_le_foldl_max : ∀ (l : List ℚ) (a x : ℚ), x ∈ l → x ≤ l.foldl max a := by
  intro l
  induction l with
  | nil => intro a x hx; cases hx
  | cons h t ih =>
    intro a x hx
    rcases List.mem_cons.mp hx with hx | hx
    · subst hx
      exact le_trans (le_max_right a x) (le_foldl_max t (max a x))
    · exact ih (max a h) x hx

/-- A max-fold returns its start value or a list element. -/
theorem foldl_max_eq_or_mem :
    ∀ (l : List ℚ) (a : ℚ), l.foldl max a = a ∨ l.foldl max a ∈ l := by
  intro l
  induction l with
  | nil => intro a; left; rfl
  | cons h t ih =>
    intro a
    rcases ih (max a h) with heq | hmem
    · rcases le_total h a with hle | hle
      · left; simp only [List.foldl_cons]; rw [heq, max_eq_left hle]
      · right; simp only [List.foldl_cons]; rw [heq, max_eq_right hle]
        exact List.mem_cons_self h t
    · right
      simp only [List.foldl_cons]
      exact List.mem_cons_of_mem h hmem

/-- A strict-update peak fold does not move when no element beats the start. -/
theorem peakFold_id (key : β → ℚ) (inj : α → β) :
    ∀ (l : List α) (b : β), (∀ x ∈ l, key (inj x) ≤ key b) →
      l.foldl (fun mx x => if key (inj x) > key mx then inj x else mx) b = b := by
  intro l
  induction l with
  | nil => intro b _; rfl
  | cons h t ih =>
    intro b hb
    have hh : ¬ key (inj h) > key b :=
      not_lt.mpr (hb h (List.mem_cons_self h t))
    simp only [List.foldl_cons, if_neg hh]
    exact ih b (fun x hx => hb x (List.mem_cons_of_mem h hx))

/-- A strict-update peak fold lands on the first element attaining the
maximum, whenever some element strictly beats the start value. -/
theorem peakFold_first (key : β → ℚ) (inj : α → β) :
    ∀ (l : List α) (b : β), (∃ x ∈ l, key b < key (inj x)) →
      ∃ pre d post, l = pre ++ d :: post ∧
        l.foldl (fun mx x => if key (inj x) > key mx then inj x else mx) b = inj d ∧
        key b < key (inj d) ∧
        (∀ e ∈ pre, key (inj e) < key (inj d)) ∧
        (∀ e ∈ l, key (inj e) ≤ key (inj d)) := by
  intro l
  induction l with
  | nil => intro b hb; obtain ⟨x, hx, _⟩ := hb; cases hx
  | cons h t ih =>
    intro b hb
    by_cases hh : key b < key (inj h)
    · simp only [List.foldl_cons, if_pos (show key (inj h) > key b from hh)]
      by_cases ht : ∃ x ∈ t, key (inj h) < key (inj x)
      · obtain ⟨pre, d, post, hteq, hfold, hgt, hpre, hall⟩ := ih (inj h) ht
        refine ⟨h :: pre, d, post, by simp [hteq], hfold, lt_trans hh hgt, ?_, ?_⟩
        · intro e he
          rcases List.mem_cons.mp he with he | he
          · subst he; exact hgt
          · exact hpre e he
        · intro e he
          rcases List.mem_cons.mp he with he | he
          · subst he; exact le_of_lt hgt
          · exact hall e (hteq ▸ he)
      · push_neg at ht
        refine ⟨[], h, t, rfl, peakFold_id key inj t (inj h) ht, hh,
          fun e he => absurd he (List.not_mem_nil e), ?_⟩
        intro e he
        rcases List.mem_cons.mp he with he | he
        · subst he; exact le_refl _
        · exact ht e he
    · simp only [List.foldl_cons, if_neg (show ¬ key (inj h) > key b from hh)]
      have ht : ∃ x ∈ t, key b < key (inj x) := by
        obtain ⟨x, hx, hxk⟩ := hb
        rcases List.mem_cons.mp hx with hx | hx
        · subst hx; exact absurd hxk hh
        · exact ⟨x, hx, hxk⟩
      obtain ⟨pre, d, post, hteq, hfold, hgt, hpre, hall⟩ := ih b ht
      refine ⟨h :: pre, d, post, by simp [hteq], hfold, hgt, ?_, ?_⟩
      · intro e he
        rcases List.mem_cons.mp he with he | he
        · subst he; exact lt_of_le_of_lt (not_lt.mp hh) hgt
        · exact hpre e he
      · intro e he
        rcases List.mem_cons.mp he with he | he
        · subst he; exact le_of_lt (lt_of_le_of_lt (not_lt.mp hh) hgt)
        · exact hall e (hteq ▸ he)

-- =============================================================================
-- Decomposition of the `buildSummary` fold into per-field folds
-- =============================================================================

/-- Any field of the summary accumulator updated by adding a per-day amount
folds to the start value plus the sum of per-day amounts. -/
theorem foldSummary_additive (proj : SummaryAcc → ℚ)
    (dayf : CopilotUsageMetrics → ℚ)
    (hstep : ∀ a d, proj (summaryStep a d) = proj a + dayf d) :
    ∀ (ms : List CopilotUsageMetrics) (a : SummaryAcc),
      proj (ms.foldl summaryStep a) = proj a + (ms.map dayf).sum := by
  intro ms
  induction ms with
  | nil => intro a; simp
  | cons d t ih =>
    intro a
    simp only [List.foldl_cons, List.map_cons, List.sum_cons, ih, hstep]
    ring

/-- Any field of the summary accumulator updated by `max` with a per-day
value folds to a max-fold of the per-day values. -/
theorem foldSummary_max (proj : SummaryAcc → ℚ)
    (dayf : CopilotUsageMetrics → ℚ)
    (hstep : ∀ a d, proj (summaryStep a d) = max (proj a) (dayf d)) :
    ∀ (ms : List CopilotUsageMetrics) (a : SummaryAcc),
      proj (ms.foldl summaryStep a) = (ms.map dayf).foldl max (proj a) := by
  intro ms
  induction ms with
  | nil => intro a; rfl
  | cons d t ih =>
    intro a
    simp only [List.foldl_cons, List.map_cons, ih, hstep]

theorem summaryStep_suggestions (a : SummaryAcc) (d : CopilotUsageMetrics) :
    (summaryStep a d).totalCodeSuggestions =
      a.totalCodeSuggestions + daySuggestions d := by
  simp [summaryStep, daySuggestions, foldl_add_eq]

theorem summaryStep_acceptances (a : SummaryAcc) (d : CopilotUsageMetrics) :
    (summaryStep a d).totalCodeAcceptances =
      a.totalCodeAcceptances + dayAcceptances d := by
  simp [summaryStep, dayAcceptances, foldl_add_eq]

theorem summaryStep_linesSuggested (a : SummaryAcc) (d : CopilotUsageMetrics) :
    (summaryStep a d).totalLinesOfCodeSuggested =
      a.totalLinesOfCodeSuggested + dayLinesSuggested d := by
  simp [summaryStep, dayLinesSuggested, foldl_add_eq]

theorem summaryStep_linesAccepted (a : SummaryAcc) (d : CopilotUsageMetrics) :
    (summaryStep a d).totalLinesOfCodeAccepted =
      a.totalLinesOfCodeAccepted + dayLinesAccepted d := by
  simp [summaryStep, dayLinesAccepted, foldl_add_eq]

theorem summaryStep_chats (a : SummaryAcc) (d : CopilotUsageMetrics) :
    (summaryStep a d).totalChats = a.totalChats + dayChats d := by
  simp [summaryStep, dayChats, dayIdeChats, dayDotcomChats, foldl_add_eq]
  ring

theorem summaryStep_chatInsertions (a : SummaryAcc) (d : CopilotUsageMetrics) :
    (summaryStep a d).totalChatInsertions =
      a.totalChatInsertions + dayChatInsertions d := by
  simp [summaryStep, dayChatInsertions, foldl_add_eq]
  ring

theorem summaryStep_chatCopyEvents (a : SummaryAcc) (d : CopilotUsageMetrics) :
    (summaryStep a d).totalChatCopyEvents =
      a.totalChatCopyEvents + dayChatCopyEvents d := by
  simp [summaryStep, dayChatCopyEvents, foldl_add_eq]
  ring

theorem summaryStep_prSummaries (a : SummaryAcc) (d : CopilotUsageMetrics) :
    (summaryStep a d).totalPrSummaries =
      a.totalPrSummaries + dayPrSummaries d := by
  simp [summaryStep, dayPrSummaries, foldl_add_eq]

/-- `buildSummary` total code suggestions: sum of per-day language sums. -/
theorem buildSummary_suggestions (ms : List CopilotUsageMetrics) :
    (buildSummary ms).totalCodeSuggestions = (ms.map daySuggestions).sum := by
  have h := foldSummary_additive SummaryAcc.totalCodeSuggestions daySuggestions
    summaryStep_suggestions ms initSummaryAcc
  simp [buildSummary, initSummaryAcc] at h ⊢
  exact h

/-- `buildSummary` total code acceptances. -/
theorem buildSummary_acceptances (ms : List CopilotUsageMetrics) :
    (buildSummary ms).totalCodeAcceptances = (ms.map dayAcceptances).sum := by
  have h := foldSummary_additive SummaryAcc.totalCodeAcceptances dayAcceptances
    summaryStep_acceptances ms initSummaryAcc
  simp [buildSummary, initSummaryAcc] at h ⊢
  exact h

/-- `buildSummary` total lines suggested. -/
theorem buildSummary_linesSuggested (ms : List CopilotUsageMetrics) :
    (buildSummary ms).totalLinesOfCodeSuggested =
      (ms.map dayLinesSuggested).sum := by
  have h := foldSummary_additive SummaryAcc.totalLinesOfCodeSuggested
    dayLinesSuggested summaryStep_linesSuggested ms initSummaryAcc
  simp [buildSummary, initSummaryAcc] at h ⊢
  exact h

/-- `buildSummary` total lines accepted. -/
theorem buildSummary_linesAccepted (ms : List CopilotUsageMetrics) :
    (buildSummary ms).totalLinesOfCodeAccepted =
      (ms.map dayLinesAccepted).sum := by
  have h := foldSummary_additive SummaryAcc.totalLinesOfCodeAccepted
    dayLinesAccepted summaryStep_linesAccepted ms initSummaryAcc
  simp [buildSummary, initSummaryAcc] at h ⊢
  exact h

/-- `buildSummary` total chats: per-day sums over both chat sections. -/
theorem buildSummary_chats (ms : List CopilotUsageMetrics) :
    (buildSummary ms).totalChats = (ms.map dayChats).sum := by
  have h := foldSummary_additive SummaryAcc.totalChats dayChats
    summaryStep_chats ms initSummaryAcc
  simp [buildSummary, initSummaryAcc] at h ⊢
  exact h

/-- `buildSummary` total chat insertions. -/
theorem buildSummary_chatInsertions (ms : List CopilotUsageMetrics) :
    (buildSummary ms).totalChatInsertions = (ms.map dayChatInsertions).sum := by
  have h := foldSummary_additive SummaryAcc.totalChatInsertions dayChatInsertions
    summaryStep_chatInsertions ms initSummaryAcc
  simp [buildSummary, initSummaryAcc] at h ⊢
  exact h

/-- `buildSummary` total chat copy events. -/
theorem buildSummary_chatCopyEvents (ms : List CopilotUsageMetrics) :
    (buildSummary ms).totalChatCopyEvents = (ms.map dayChatCopyEvents).sum := by
  have h := foldSummary_additive SummaryAcc.totalChatCopyEvents dayChatCopyEvents
    summaryStep_chatCopyEvents ms initSummaryAcc
  simp [buildSummary, initSummaryAcc] at h ⊢
  exact h

/-- `buildSummary` total active users as a max-fold of the daily values. -/
theorem buildSummary_totalActive (ms : List CopilotUsageMetrics) :
    (buildSummary ms).totalActiveUsers =
      (ms.map CopilotUsageMetrics.total_active_users).foldl max 0 := by
  have h := foldSummary_max SummaryAcc.totalActiveUsers
    CopilotUsageMetrics.total_active_users (fun a d => rfl) ms initSummaryAcc
  simp [buildSummary, initSummaryAcc] at h ⊢
  exact h

/-- `buildSummary` total engaged users as a max-fold of the daily values. -/
theorem buildSummary_totalEngaged (ms : List CopilotUsageMetrics) :
    (buildSummary ms).totalEngagedUsers =
      (ms.map CopilotUsageMetrics.total_engaged_users).foldl max 0 := by
  have h := foldSummary_max SummaryAcc.totalEngagedUsers
    CopilotUsageMetrics.total_engaged_users (fun a d => rfl) ms initSummaryAcc
  simp [buildSummary, initSummaryAcc] at h ⊢
  exact h

/-- The peak accumulator pair evolves as a strict-update peak fold. -/
theorem foldSummary_peak :
    ∀ (ms : List CopilotUsageMetrics) (a : SummaryAcc),
      ((ms.foldl summaryStep a).peakActiveUsers,
       (ms.foldl summaryStep a).peakActiveUsersDate) =
      ms.foldl peakStepPair (a.peakActiveUsers, a.peakActiveUsersDate) := by
  intro ms
  induction ms with
  | nil => intro a; rfl
  | cons d t ih =>
    intro a
    simp only [List.foldl_cons, ih]
    by_cases hc : d.total_active_users > a.peakActiveUsers
    · simp [summaryStep, peakStepPair, hc]
    · simp [summaryStep, peakStepPair, hc]

/-- The first component of the pair fold is a max-fold of the daily values. -/
theorem peakStepPair_fst :
    ∀ (l : List CopilotUsageMetrics) (b : ℚ × String),
      (l.foldl peakStepPair b).1 =
        (l.map CopilotUsageMetrics.total_active_users).foldl max b.1 := by
  intro l
  induction l with
  | nil => intro b; rfl
  | cons d t ih =>
    intro b
    simp only [List.foldl_cons, List.map_cons]
    rw [ih]
    congr 1
    by_cases hc : d.total_active_users > b.1
    · simp [peakStepPair, hc, max_eq_right (le_of_lt hc)]
    · simp [peakStepPair, hc, max_eq_left (not_lt.mp hc)]

/-- The pair fold stays put when no day beats the start value. -/
theorem peakStepPair_id (l : List CopilotUsageMetrics) (b1 : ℚ) (b2 : String)
    (h : ∀ x ∈ l, x.total_active_users ≤ b1) :
    l.foldl peakStepPair (b1, b2) = (b1, b2) :=
  peakFold_id Prod.fst
    (fun d : CopilotUsageMetrics => (d.total_active_users, d.date)) l (b1, b2) h

/-- The pair fold lands on the first day attaining the maximum whenever some
day strictly beats the start value. -/
theorem peakStepPair_first (l : List CopilotUsageMetrics) (b1 : ℚ) (b2 : String)
    (h : ∃ x ∈ l, b1 < x.total_active_users) :
    ∃ pre d post, l = pre ++ d :: post ∧
      l.foldl peakStepPair (b1, b2) = (d.total_active_users, d.date) ∧
      b1 < d.total_active_users ∧
      (∀ e ∈ pre, e.total_active_users < d.total_active_users) ∧
      (∀ e ∈ l, e.total_active_users ≤ d.total_active_users) :=
  peakFold_first Prod.fst
    (fun d : CopilotUsageMetrics => (d.total_active_users, d.date)) l (b1, b2) h

-- =============================================================================
-- Stable-sort lemmas
-- =============================================================================

/-- Insertion produces a permutation. -/
theorem insertDescBy_perm (key : α → ℚ) (x : α) :
    ∀ l : List α, (insertDescBy key x l).Perm (x :: l) := by
  intro l
  induction l with
  | nil => exact List.Perm.refl _
  | cons h t ih =>
    by_cases hlt : key x < key h
    · simp only [insertDescBy, if_pos hlt]
      exact (ih.cons h).trans (List.Perm.swap x h t)
    · simp only [insertDescBy, if_neg hlt]
      exact List.Perm.refl _

/-- Inserting preserves descending sortedness. -/
theorem pairwise_insertDescBy (key : α → ℚ) (x : α) :
    ∀ l : List α, List.Pairwise (fun a b => key b ≤ key a) l →
      List.Pairwise (fun a b => key b ≤ key a) (insertDescBy key x l) := by
  intro l
  induction l with
  | nil => intro _; simp [insertDescBy]
  | cons h t ih =>
    intro hp
    rcases List.pairwise_cons.mp hp with ⟨hht, htp⟩
    by_cases hlt : key x < key h
    · simp only [insertDescBy, if_pos hlt]
      refine List.pairwise_cons.mpr ⟨?_, ih htp⟩
      intro y hy
      rcases List.mem_cons.mp (((insertDescBy_perm key x t).mem_iff).mp hy)
        with hy | hy
      · subst hy; exact le_of_lt hlt
      · exact hht y hy
    · simp only [insertDescBy, if_neg hlt]
      refine List.pairwise_cons.mpr ⟨?_, hp⟩
      intro y hy
      rcases List.mem_cons.mp hy with hy | hy
      · subst hy; exact not_lt.mp hlt
      · exact le_trans (hht y hy) (not_lt.mp hlt)

/-- The stable descending sort is sorted (non-increasing in the key). -/
theorem sortDescBy_pairwise (key : α → ℚ) :
    ∀ l : List α, List.Pairwise (fun a b => key b ≤ key a) (sortDescBy key l) := by
  intro l
  induction l with
  | nil => simp [sortDescBy]
  | cons x xs ih => exact pairwise_insertDescBy key x _ ih

/-- The stable descending sort permutes its input. -/
theorem sortDescBy_perm (key : α → ℚ) :
    ∀ l : List α, (sortDescBy key l).Perm l := by
  intro l
  induction l with
  | nil => exact List.Perm.refl _
  | cons x xs ih =>
    exact (insertDescBy_perm key x (sortDescBy key xs)).trans (ih.cons x)

/-- Inserting an element keys the filter-by-key view: elements passed over
have strictly greater keys, so the inserted element lands behind every
earlier element of equal key. -/
theorem insertDescBy_filter (key : α → ℚ) (x : α) (q : ℚ) :
    ∀ l : List α,
      (insertDescBy key x l).filter (fun b => decide (key b = q)) =
        if key x = q then x :: l.filter (fun b => decide (key b = q))
        else l.filter (fun b => decide (key b = q)) := by
  intro l
  induction l with
  | nil =>
    by_cases hxq : key x = q <;> simp [insertDescBy, List.filter, hxq]
  | cons h t ih =>
    by_cases hlt : key x < key h
    · simp only [insertDescBy, if_pos hlt]
      by_cases hxq : key x = q
      · have hhq : ¬ key h = q := by
          rw [← hxq]; exact ne_of_gt hlt
        simp [List.filter_cons, hxq, hhq, ih]
      · by_cases hhq : key h = q <;> simp [List.filter_cons, hxq, hhq, ih]
    · simp only [insertDescBy, if_neg hlt]
      by_cases hxq : key x = q <;> simp [List.filter_cons, hxq]

/-- Stability of the sort: restricting to any single key value preserves
the original (first-seen) order. -/
theorem sortDescBy_filter (key : α → ℚ) (q : ℚ) :
    ∀ l : List α,
      (sortDescBy key l).filter (fun b => decide (key b = q)) =
        l.filter (fun b => decide (key b = q)) := by
  intro l
  induction l with
  | nil => rfl
  | cons x xs ih =>
    simp only [sortDescBy, insertDescBy_filter, ih]
    by_cases hxq : key x = q <;> simp [List.filter_cons, hxq]

-- =============================================================================
-- Validator lemmas
-- =============================================================================

/-- If one element fails to parse, the whole array parse fails. -/
theorem mapE_append_error (p : Json → Except String α) (x : Json) (e : String)
    (hx : p x = .error e) :
    ∀ pre post, ∃ e2, mapE p (pre ++ x :: post) = .error e2 := by
  intro pre
  induction pre with
  | nil => intro post; exact ⟨e, by simp [mapE, hx]⟩
  | cons h t ih =>
    intro post
    cases hph : p h with
    | error e3 => exact ⟨e3, by simp [mapE, hph]⟩
    | ok y =>
      obtain ⟨e2, he2⟩ := ih post
      refine ⟨e2, ?_⟩
      simp only [List.cons_append, mapE, hph, List.append_eq, he2]

/-- A day object without a `date` key fails the day schema. -/
theorem parseDay_no_date (o : List (String × Json)) (h : jget o "date" = none) :
    ∃ e, parseDay (Json.obj o) = .error e :=
  ⟨"date" ++ ": Required", by simp [parseDay, expectStrReq, h, exBind]⟩

/-- A day object whose `total_active_users` is a string fails the day
schema: there is no implicit coercion to number. -/
theorem parseDay_tau_string (o : List (String × Json)) (s : String)
    (h : jget o "total_active_users" = some (Json.str s)) :
    ∃ e, parseDay (Json.obj o) = .error e := by
  cases hd : expectStrReq o "date" with
  | error e => exact ⟨e, by simp [parseDay, exBind, hd]⟩
  | ok v =>
    exact ⟨"total_active_users: Expected number",
      by simp [parseDay, exBind, hd, expectNumD, h]⟩

-- =============================================================================
-- Claim theorems
-- =============================================================================

/-- C1: the summary acceptance rate equals `round2 (100 * acceptances /
suggestions)` whenever suggestions are positive and is exactly 0 when they
are 0; each daily entry obeys the same formula and zero-guard for its own
day. -/
theorem c1_acceptance_rate_formula (metrics : List CopilotUsageMetrics) :
    ((buildSummary metrics).totalCodeSuggestions > 0 →
      (buildSummary metrics).acceptanceRate =
        round2 (100 * (buildSummary metrics).totalCodeAcceptances /
          (buildSummary metrics).totalCodeSuggestions)) ∧
    ((buildSummary metrics).totalCodeSuggestions = 0 →
      (buildSummary metrics).acceptanceRate = 0) ∧
    (∀ e ∈ buildDailyMetrics metrics,
      (e.codeSuggestions > 0 →
        e.acceptanceRate = round2 (100 * e.codeAcceptances / e.codeSuggestions)) ∧
      (e.codeSuggestions = 0 → e.acceptanceRate = 0)) := by
  refine ⟨?_, ?_, ?_⟩
  · intro h
    simp only [buildSummary] at h ⊢
    rw [if_pos h]
    congr 1
    ring
  · intro h
    simp only [buildSummary] at h ⊢
    rw [h]
    norm_num [round2, mathRound]
  · intro e he
    obtain ⟨day, _, rfl⟩ := List.mem_map.mp he
    refine ⟨?_, ?_⟩
    · intro h
      simp only [dailyOf] at h ⊢
      rw [if_pos h]
      congr 1
      ring
    · intro h
      simp only [dailyOf] at h ⊢
      rw [h]
      norm_num [round2, mathRound]

/-- C1 witness: the two-day demo scenario has positive suggestions and its
rate follows the formula (value: 33.52). -/
theorem c1_witness :
    (buildSummary [demoDay1, demoDay2]).totalCodeSuggestions > 0 ∧
    (buildSummary [demoDay1, demoDay2]).acceptanceRate =
      round2 (100 * (buildSummary [demoDay1, demoDay2]).totalCodeAcceptances /
        (buildSummary [demoDay1, demoDay2]).totalCodeSuggestions) := by
  have hpos : (buildSummary [demoDay1, demoDay2]).totalCodeSuggestions > 0 := by
    norm_num [buildSummary, summaryStep, initSummaryAcc, langsOf,
      demoDay1, demoDay2, demoLang1, demoLang2]
  exact ⟨hpos, (c1_acceptance_rate_formula [demoDay1, demoDay2]).1 hpos⟩

/-- C4: the daily-metrics array has one entry per input day in input order,
and the three trend arrays mirror its length, dates, and the respective
daily fields. -/
theorem c4_daily_and_trend_alignment (metrics : List CopilotUsageMetrics) :
    (buildDailyMetrics metrics).length = metrics.length ∧
    (buildDailyMetrics metrics).map DailyMetrics.date =
      metrics.map CopilotUsageMetrics.date ∧
    (buildTrends (buildDailyMetrics metrics)).activeUsersTrend.length =
      (buildDailyMetrics metrics).length ∧
    (buildTrends (buildDailyMetrics metrics)).acceptanceRateTrend.length =
      (buildDailyMetrics metrics).length ∧
    (buildTrends (buildDailyMetrics metrics)).suggestionsVolumeTrend.length =
      (buildDailyMetrics metrics).length ∧
    (buildTrends (buildDailyMetrics metrics)).activeUsersTrend.map
      TrendDataPoint.date = (buildDailyMetrics metrics).map DailyMetrics.date ∧
    (buildTrends (buildDailyMetrics metrics)).activeUsersTrend.map
      TrendDataPoint.value =
      (buildDailyMetrics metrics).map DailyMetrics.activeUsers ∧
    (buildTrends (buildDailyMetrics metrics)).acceptanceRateTrend.map
      TrendDataPoint.date = (buildDailyMetrics metrics).map DailyMetrics.date ∧
    (buildTrends (buildDailyMetrics metrics)).acceptanceRateTrend.map
      TrendDataPoint.value =
      (buildDailyMetrics metrics).map DailyMetrics.acceptanceRate ∧
    (buildTrends (buildDailyMetrics metrics)).suggestionsVolumeTrend.map
      TrendDataPoint.date = (buildDailyMetrics metrics).map DailyMetrics.date ∧
    (buildTrends (buildDailyMetrics metrics)).suggestionsVolumeTrend.map
      TrendDataPoint.value =
      (buildDailyMetrics metrics).map DailyMetrics.codeSuggestions := by
  refine ⟨?_, ?_, ?_, ?_, ?_, ?_, ?_, ?_, ?_, ?_, ?_⟩ <;>
    simp [buildDailyMetrics, buildTrends, List.map_map, Function.comp, dailyOf]

/-- C5: the language breakdown is sorted non-increasing by suggestions with
ties in first-seen order (its restriction to any suggestion count equals the
accumulation order), and the editor breakdown is sorted non-increasing by
engaged users. -/
theorem c5_breakdowns_sorted (metrics : List CopilotUsageMetrics) :
    List.Pairwise (fun a b => b.suggestions ≤ a.suggestions)
      (buildLanguageBreakdown metrics) ∧
    List.Pairwise (fun a b => b.engagedUsers ≤ a.engagedUsers)
      (buildEditorBreakdown metrics) ∧
    (∀ q : ℚ,
      (buildLanguageBreakdown metrics).filter (fun b => decide (b.suggestions = q)) =
        ((accLangs metrics).map langToBreakdown).filter
          (fun b => decide (b.suggestions = q))) := by
  refine ⟨?_, ?_, ?_⟩
  · exact sortDescBy_pairwise LanguageBreakdown.suggestions _
  · exact sortDescBy_pairwise EditorBreakdown.engagedUsers _
  · intro q
    exact sortDescBy_filter LanguageBreakdown.suggestions q _

/-- C6: the chat totals sum the chat-model metrics of BOTH the IDE-chat and
the dotcom-chat sections across all days; a day reporting 10 chats in each
section contributes 20, not 10. -/
theorem c6_chats_both_sections (metrics : List CopilotUsageMetrics) :
    (buildSummary metrics).totalChats = (metrics.map dayChats).sum ∧
    (buildSummary metrics).totalChatInsertions =
      (metrics.map dayChatInsertions).sum ∧
    (buildSummary metrics).totalChatCopyEvents =
      (metrics.map dayChatCopyEvents).sum ∧
    (∀ pre post day, dayIdeChats day = 10 → dayDotcomChats day = 10 →
      (buildSummary (pre ++ day :: post)).totalChats =
        (buildSummary (pre ++ post)).totalChats + 20) := by
  refine ⟨buildSummary_chats metrics, buildSummary_chatInsertions metrics,
    buildSummary_chatCopyEvents metrics, ?_⟩
  intro pre post day hide hdot
  rw [buildSummary_chats, buildSummary_chats]
  have hday : dayChats day = 20 := by
    simp [dayChats, hide, hdot]
    norm_num
  simp [List.map_append, List.sum_append, hday]
  ring

/-- C6 witness: a concrete day whose IDE-chat and dotcom-chat sections each
report 10 chats contributes 20 to the summary total. -/
theorem c6_witness :
    dayIdeChats chatDay = 10 ∧ dayDotcomChats chatDay = 10 ∧
    (buildSummary [chatDay]).totalChats = (buildSummary []).totalChats + 20 := by
  have hide : dayIdeChats chatDay = 10 := by
    norm_num [dayIdeChats, ideChatModelsOf, chatDay]
  have hdot : dayDotcomChats chatDay = 10 := by
    norm_num [dayDotcomChats, dotcomChatModelsOf, chatDay]
  exact ⟨hide, hdot, (c6_chats_both_sections []).2.2.2 [] [] chatDay hide hdot⟩

/-- C2 counterexample: for a single valid day with 0 active users, the day
with the (trivially) greatest `total_active_users` is that day, but the code
reports the empty string as peak date, not that day's date. -/
theorem c2_counterexample :
    (buildSummary [zeroDay]).peakActiveUsersDate ≠ zeroDay.date ∧
    (∀ d ∈ [zeroDay], d.total_active_users ≤ zeroDay.total_active_users) ∧
    zeroDay.date = "2024-01-01" ∧
    (buildSummary [zeroDay]).peakActiveUsersDate = "" := by
  have hdate : (buildSummary [zeroDay]).peakActiveUsersDate = "" := by
    simp [buildSummary, summaryStep, initSummaryAcc, zeroDay]
  refine ⟨?_, ?_, rfl, hdate⟩
  · rw [hdate]
    simp [zeroDay]
  · intro d hd
    rcases List.mem_cons.mp hd with hd | hd
    · subst hd; exact le_refl _
    · cases hd

/-- C2 (amended): user totals are the attained maxima of the daily values,
the peak equals the active maximum, and the peak date identifies the first
day strictly exceeding all earlier days whenever the maximum is positive;
the peak date is the empty string whenever the maximum is 0 (hence also for
the empty sequence). -/
theorem c2_max_and_peak (metrics : List CopilotUsageMetrics)
    (hA : ∀ d ∈ metrics, 0 ≤ d.total_active_users)
    (hE : ∀ d ∈ metrics, 0 ≤ d.total_engaged_users) :
    MaxPeakSummarySpec metrics := by
  have hAct := buildSummary_totalActive metrics
  have hEng := buildSummary_totalEngaged metrics
  have hpair : ((buildSummary metrics).peakActiveUsers,
      (buildSummary metrics).peakActiveUsersDate) =
      metrics.foldl peakStepPair (0, "") := by
    have h := foldSummary_peak metrics initSummaryAcc
    simpa [buildSummary, initSummaryAcc] using h
  have hpeak1 : (buildSummary metrics).peakActiveUsers =
      (metrics.foldl peakStepPair (0, "")).1 := by rw [← hpair]
  have hdate1 : (buildSummary metrics).peakActiveUsersDate =
      (metrics.foldl peakStepPair (0, "")).2 := by rw [← hpair]
  have hpeak_eq : (buildSummary metrics).peakActiveUsers =
      (buildSummary metrics).totalActiveUsers := by
    rw [hpeak1, peakStepPair_fst, hAct]
  refine ⟨?_, ?_, ?_, ?_, hpeak_eq, ?_, ?_, ?_⟩
  · intro d hd
    rw [hAct]
    exact mem_le_foldl_max _ 0 _ (List.mem_map_of_mem _ hd)
  · intro d hd
    rw [hEng]
    exact mem_le_foldl_max _ 0 _ (List.mem_map_of_mem _ hd)
  · intro hne
    rw [hAct]
    rcases foldl_max_eq_or_mem
      (metrics.map CopilotUsageMetrics.total_active_users) 0 with h0 | hm
    · cases metrics with
      | nil => exact absurd rfl hne
      | cons d t =>
        have hd0 : d.total_active_users ≤ 0 := by
          have := mem_le_foldl_max
            ((d :: t).map CopilotUsageMetrics.total_active_users) 0
            d.total_active_users
            (List.mem_map_of_mem _ (List.mem_cons_self d t))
          rw [h0] at this
          exact this
        have hz : d.total_active_users = 0 :=
          le_antisymm hd0 (hA d (List.mem_cons_self d t))
        rw [h0, ← hz]
        exact List.mem_map_of_mem _ (List.mem_cons_self d t)
    · exact hm
  · intro hne
    rw [hEng]
    rcases foldl_max_eq_or_mem
      (metrics.map CopilotUsageMetrics.total_engaged_users) 0 with h0 | hm
    · cases metrics with
      | nil => exact absurd rfl hne
      | cons d t =>
        have hd0 : d.total_engaged_users ≤ 0 := by
          have := mem_le_foldl_max
            ((d :: t).map CopilotUsageMetrics.total_engaged_users) 0
            d.total_engaged_users
            (List.mem_map_of_mem _ (List.mem_cons_self d t))
          rw [h0] at this
          exact this
        have hz : d.total_engaged_users = 0 :=
          le_antisymm hd0 (hE d (List.mem_cons_self d t))
        rw [h0, ← hz]
        exact List.mem_map_of_mem _ (List.mem_cons_self d t)
    · exact hm
  · intro h
    subst h
    refine ⟨?_, ?_, ?_⟩ <;> simp [buildSummary, initSummaryAcc]
  · intro hpos
    have hex : ∃ x ∈ metrics, (0 : ℚ) < x.total_active_users := by
      by_contra hno
      push_neg at hno
      have hid := peakStepPair_id metrics 0 "" hno
      rw [hpeak1, hid] at hpos
      exact lt_irrefl 0 hpos
    obtain ⟨pre, d, post, hsplit, hfold, hgt, hpre, hall⟩ :=
      peakStepPair_first metrics 0 "" hex
    refine ⟨pre, d, post, hsplit, ?_, ?_, hpre⟩
    · rw [hpeak1, hfold]
    · rw [hdate1, hfold]
  · intro h0
    have hall : ∀ x ∈ metrics, x.total_active_users ≤ 0 := by
      intro x hx
      have hx1 := mem_le_foldl_max
        (metrics.map CopilotUsageMetrics.total_active_users) 0
        x.total_active_users (List.mem_map_of_mem _ hx)
      rw [← hAct, ← hpeak_eq, h0] at hx1
      exact hx1
    have hid := peakStepPair_id metrics 0 "" hall
    rw [hdate1, hid]

/-- C2 witness: the amended max/peak property at the two-day demo input,
whose daily values are non-negative. -/
theorem c2_witness :
    (∀ d ∈ [demoDay1, demoDay2], (0 : ℚ) ≤ d.total_active_users) ∧
    (∀ d ∈ [demoDay1, demoDay2], (0 : ℚ) ≤ d.total_engaged_users) ∧
    MaxPeakSummarySpec [demoDay1, demoDay2] := by
  have hA : ∀ d ∈ [demoDay1, demoDay2], (0 : ℚ) ≤ d.total_active_users := by
    intro d hd
    rcases List.mem_cons.mp hd with hd | hd
    · subst hd; norm_num [demoDay1]
    · rcases List.mem_cons.mp hd with hd | hd
      · subst hd; norm_num [demoDay2]
      · cases hd
  have hE : ∀ d ∈ [demoDay1, demoDay2], (0 : ℚ) ≤ d.total_engaged_users := by
    intro d hd
    rcases List.mem_cons.mp hd with hd | hd
    · subst hd; norm_num [demoDay1]
    · rcases List.mem_cons.mp hd with hd | hd
      · subst hd; norm_num [demoDay2]
      · cases hd
  exact ⟨hA, hE, c2_max_and_peak [demoDay1, demoDay2] hA hE⟩

/-- C3: rate computations are zero-guarded everywhere (summary, daily
entries, language breakdown), and the empty input yields all-zero totals and
rates, an empty-string peak date, and empty breakdowns and trends. -/
theorem c3_empty_input_and_guards :
    (∀ metrics : List CopilotUsageMetrics,
      (buildSummary metrics).totalCodeSuggestions = 0 →
        (buildSummary metrics).acceptanceRate = 0) ∧
    (∀ metrics : List CopilotUsageMetrics, ∀ e ∈ buildDailyMetrics metrics,
      e.codeSuggestions = 0 → e.acceptanceRate = 0) ∧
    (∀ metrics : List CopilotUsageMetrics, ∀ b ∈ buildLanguageBreakdown metrics,
      b.suggestions = 0 → b.acceptanceRate = 0) ∧
    (buildSummary []).totalActiveUsers = 0 ∧
    (buildSummary []).totalEngagedUsers = 0 ∧
    (buildSummary []).peakActiveUsers = 0 ∧
    (buildSummary []).peakActiveUsersDate = "" ∧
    (buildSummary []).avgDailyActiveUsers = 0 ∧
    (buildSummary []).totalCodeSuggestions = 0 ∧
    (buildSummary []).totalCodeAcceptances = 0 ∧
    (buildSummary []).acceptanceRate = 0 ∧
    (buildSummary []).totalLinesOfCodeSuggested = 0 ∧
    (buildSummary []).totalLinesOfCodeAccepted = 0 ∧
    (buildSummary []).totalChats = 0 ∧
    (buildSummary []).totalChatInsertions = 0 ∧
    (buildSummary []).totalChatCopyEvents = 0 ∧
    (buildSummary []).totalPrSummaries = 0 ∧
    buildDailyMetrics [] = [] ∧
    buildLanguageBreakdown [] = [] ∧
    buildEditorBreakdown [] = [] ∧
    (buildTrends (buildDailyMetrics [])).activeUsersTrend = [] ∧
    (buildTrends (buildDailyMetrics [])).acceptanceRateTrend = [] ∧
    (buildTrends (buildDailyMetrics [])).suggestionsVolumeTrend = [] := by
  refine ⟨?_, ?_, ?_, ?_⟩
  · intro metrics h
    simp only [buildSummary] at h ⊢
    rw [h]
    norm_num [round2, mathRound]
  · intro metrics e he h
    obtain ⟨day, _, rfl⟩ := List.mem_map.mp he
    simp only [dailyOf] at h ⊢
    rw [h]
    norm_num [round2, mathRound]
  · intro metrics b hb h
    have hb2 : b ∈ (accLangs metrics).map langToBreakdown :=
      ((sortDescBy_perm LanguageBreakdown.suggestions _).mem_iff).mp hb
    obtain ⟨lang, _, rfl⟩ := List.mem_map.mp hb2
    simp only [langToBreakdown] at h ⊢
    rw [h]
    norm_num [round2, mathRound]
  · refine ⟨?_, ?_, ?_, ?_, ?_, ?_, ?_, ?_, ?_, ?_, ?_, ?_, ?_, ?_,
      rfl, rfl, rfl, rfl, rfl, rfl⟩ <;>
      norm_num [buildSummary, initSummaryAcc, round2, mathRound]

/-- C3 witness: at the empty input the suggestion total is 0 and the
zero-guard makes the rate exactly 0. -/
theorem c3_witness :
    (buildSummary []).totalCodeSuggestions = 0 ∧
    (buildSummary []).acceptanceRate = 0 := by
  have hz : (buildSummary []).totalCodeSuggestions = 0 := by
    norm_num [buildSummary, initSummaryAcc]
  exact ⟨hz, c3_empty_input_and_guards.1 [] hz⟩

-- =============================================================================
-- Mock-summary support lemmas
-- =============================================================================

/-- Every element bounds `jsMaxList` from below. -/
theorem jsMaxList_le (l : List ℚ) (x : ℚ) (hx : x ∈ l) : x ≤ jsMaxList l := by
  cases l with
  | nil => cases hx
  | cons h t =>
    rcases List.mem_cons.mp hx with hx | hx
    · subst hx; exact le_foldl_max t x
    · exact mem_le_foldl_max t h x hx

/-- `jsMaxList` of a nonempty list is attained. -/
theorem jsMaxList_mem (l : List ℚ) (hne : l ≠ []) : jsMaxList l ∈ l := by
  cases l with
  | nil => exact absurd rfl hne
  | cons h t =>
    rcases foldl_max_eq_or_mem t h with h0 | hm
    · simp only [jsMaxList, h0]
      exact List.mem_cons_self h t
    · simp only [jsMaxList]
      exact List.mem_cons_of_mem h hm

/-- The mock peak reduction stays put when no element beats the start. -/
theorem mockPeak_id (l : List DailyMetrics) (m : DailyMetrics)
    (h : ∀ x ∈ l, x.activeUsers ≤ m.activeUsers) :
    l.foldl (fun mx d => if d.activeUsers > mx.activeUsers then d else mx) m = m :=
  peakFold_id DailyMetrics.activeUsers id l m h

/-- The mock peak reduction lands on the first element attaining the maximum
whenever some element strictly beats the start. -/
theorem mockPeak_first (l : List DailyMetrics) (m : DailyMetrics)
    (h : ∃ x ∈ l, m.activeUsers < x.activeUsers) :
    ∃ pre d post, l = pre ++ d :: post ∧
      l.foldl (fun mx x => if x.activeUsers > mx.activeUsers then x else mx) m = d ∧
      m.activeUsers < d.activeUsers ∧
      (∀ e ∈ pre, e.activeUsers < d.activeUsers) ∧
      (∀ e ∈ l, e.activeUsers ≤ d.activeUsers) :=
  peakFold_first DailyMetrics.activeUsers id l m h

-- =============================================================================
-- Remaining claim theorems
-- =============================================================================

/-- C7: validation yields a failure result (success false, non-empty error
list) and never throws when the top level is not an array, when an element
lacks the `date` field, or when a numeric field is given as a string. -/
theorem c7_validation_failures :
    (∀ j : Json, (∀ xs, j ≠ Json.arr xs) →
      (validateMetricsResponse j).success = false ∧
      (validateMetricsResponse j).errors ≠ []) ∧
    (∀ (pre post : List Json) (o : List (String × Json)),
      jget o "date" = none →
      (validateMetricsResponse (Json.arr (pre ++ Json.obj o :: post))).success
          = false ∧
      (validateMetricsResponse (Json.arr (pre ++ Json.obj o :: post))).errors
          ≠ []) ∧
    (∀ (pre post : List Json) (o : List (String × Json)) (s : String),
      jget o "total_active_users" = some (Json.str s) →
      (validateMetricsResponse (Json.arr (pre ++ Json.obj o :: post))).success
          = false ∧
      (validateMetricsResponse (Json.arr (pre ++ Json.obj o :: post))).errors
          ≠ []) := by
  refine ⟨?_, ?_, ?_⟩
  · intro j hj
    cases j with
    | arr xs => exact absurd rfl (hj xs)
    | null => exact ⟨rfl, by simp [validateMetricsResponse]⟩
    | bool b => exact ⟨rfl, by simp [validateMetricsResponse]⟩
    | num q => exact ⟨rfl, by simp [validateMetricsResponse]⟩
    | str s => exact ⟨rfl, by simp [validateMetricsResponse]⟩
    | obj o => exact ⟨rfl, by simp [validateMetricsResponse]⟩
  · intro pre post o h
    obtain ⟨e, he⟩ := parseDay_no_date o h
    obtain ⟨e2, he2⟩ := mapE_append_error parseDay _ e he pre post
    constructor <;> simp [validateMetricsResponse, he2]
  · intro pre post o s h
    obtain ⟨e, he⟩ := parseDay_tau_string o s h
    obtain ⟨e2, he2⟩ := mapE_append_error parseDay _ e he pre post
    constructor <;> simp [validateMetricsResponse, he2]

/-- C7 witness: the spec scenario — an element with a string
`total_active_users` and no `date` — fails validation with errors. -/
theorem c7_witness :
    jget [("total_active_users", Json.str "100")] "date" = none ∧
    (validateMetricsResponse (Json.arr
      [Json.obj [("total_active_users", Json.str "100")]])).success = false ∧
    (validateMetricsResponse (Json.arr
      [Json.obj [("total_active_users", Json.str "100")]])).errors ≠ [] := by
  have h : jget [("total_active_users", Json.str "100")] "date" = none := by
    simp [jget]
  have hres := c7_validation_failures.2.1 [] []
    [("total_active_users", Json.str "100")] h
  exact ⟨h, hres.1, hres.2⟩

/-- C8 counterexample: an entry expiring at time 100 read at time 100 (not
strictly before expiry) is still returned as a hit, contradicting the
strict `now < expiresAt` hit condition. -/
theorem c8_counterexample :
    (getFromCache (getCacheKey "enterprise" "acme" "2024-01-01" "2024-01-31")
      100 demoCache).1 = some demoCacheEntry.data ∧
    demoCacheEntry.expiresAt = 100 ∧
    ¬ (100 : ℚ) < demoCacheEntry.expiresAt := by
  refine ⟨?_, rfl, ?_⟩
  · simp [getFromCache, demoCache, demoCacheEntry, List.find?]
  · norm_num [demoCacheEntry]

/-- C8 (amended): `get` returns the stored data when the entry is present
and `now ≤ expiresAt`; it misses when absent; and when present with
`expiresAt < now` it misses and evicts the entry as a side effect. -/
theorem c8_cache_get_ttl (key : String) (now : ℚ) (c : CacheMap) :
    (c.find? (fun p => p.1 == key) = none →
      getFromCache key now c = (none, c)) ∧
    (∀ k e, c.find? (fun p => p.1 == key) = some (k, e) →
      now ≤ e.expiresAt → getFromCache key now c = (some e.data, c)) ∧
    (∀ k e, c.find? (fun p => p.1 == key) = some (k, e) →
      e.expiresAt < now →
      getFromCache key now c = (none, c.filter (fun p => p.1 != key))) := by
  refine ⟨?_, ?_, ?_⟩
  · intro h
    simp [getFromCache, h]
  · intro k e hfind hle
    simp [getFromCache, hfind, not_lt.mpr hle]
  · intro k e hfind hlt
    simp [getFromCache, hfind, hlt]

/-- C8 witness: the demo cache read at time 50 ≤ 100 is a hit and leaves
the cache unchanged. -/
theorem c8_witness :
    demoCache.find? (fun p =>
      p.1 == getCacheKey "enterprise" "acme" "2024-01-01" "2024-01-31") =
      some (getCacheKey "enterprise" "acme" "2024-01-01" "2024-01-31",
        demoCacheEntry) ∧
    (50 : ℚ) ≤ demoCacheEntry.expiresAt ∧
    getFromCache (getCacheKey "enterprise" "acme" "2024-01-01" "2024-01-31")
      50 demoCache = (some demoCacheEntry.data, demoCache) := by
  have hfind : demoCache.find? (fun p =>
      p.1 == getCacheKey "enterprise" "acme" "2024-01-01" "2024-01-31") =
      some (getCacheKey "enterprise" "acme" "2024-01-01" "2024-01-31",
        demoCacheEntry) := by
    simp [demoCache, List.find?]
  have hle : (50 : ℚ) ≤ demoCacheEntry.expiresAt := by
    norm_num [demoCacheEntry]
  exact ⟨hfind, hle,
    (c8_cache_get_ttl _ 50 demoCache).2.1 _ _ hfind hle⟩

/-- C9 counterexample: on a two-day synthetic sequence with 1 and 2 active
users, the mock summary reports an average of 2 while the aggregator's §4.1
formula gives 1.5 — the mock rounds the average to an integer, not to two
decimals. -/
theorem c9_counterexample :
    (mockSummary [mockDm1, mockDm2] 2).avgDailyActiveUsers = 2 ∧
    specAvgDailyActiveUsers [mockDm1, mockDm2] = 3 / 2 ∧
    (mockSummary [mockDm1, mockDm2] 2).avgDailyActiveUsers ≠
      specAvgDailyActiveUsers [mockDm1, mockDm2] := by
  have h1 : (mockSummary [mockDm1, mockDm2] 2).avgDailyActiveUsers = 2 := by
    norm_num [mockSummary, mockPeakDay, jsMaxList, mockDm1, mockDm2, mathRound]
  have h2 : specAvgDailyActiveUsers [mockDm1, mockDm2] = 3 / 2 := by
    norm_num [specAvgDailyActiveUsers, mockDm1, mockDm2, round2, mathRound]
  refine ⟨h1, h2, ?_⟩
  rw [h1, h2]
  norm_num

/-- C9 (amended): the mock summary follows the aggregator's formulas for all
totals, maxima, the peak day, and the acceptance rate, but rounds the
average daily active users to an integer and derives chat copy events as
42% of chat insertions. -/
theorem c9_mock_formulas (dm : List DailyMetrics) (hne : dm ≠ []) :
    MockSummaryFormulaSpec dm := by
  refine ⟨?_, ?_, ?_, ?_, ?_, ?_, ?_, ?_, ?_, ?_, ?_, ?_, ?_, ?_, ?_⟩
  · simp [mockSummary, foldl_add_eq]
  · simp [mockSummary, foldl_add_eq]
  · simp [mockSummary, foldl_add_eq]
  · simp [mockSummary, foldl_add_eq]
  · simp [mockSummary, foldl_add_eq]
  · simp [mockSummary, foldl_add_eq]
  · simp [mockSummary, foldl_add_eq]
  · intro d hd
    simp only [mockSummary]
    exact jsMaxList_le _ _ (List.mem_map_of_mem _ hd)
  · simp only [mockSummary]
    exact jsMaxList_mem _ (by simpa using hne)
  · intro d hd
    simp only [mockSummary]
    exact jsMaxList_le _ _ (List.mem_map_of_mem _ hd)
  · simp only [mockSummary]
    exact jsMaxList_mem _ (by simpa using hne)
  · cases dm with
    | nil => exact absurd rfl hne
    | cons h t =>
      have hstart : mockPeakDay (h :: t) =
          t.foldl (fun mx d => if d.activeUsers > mx.activeUsers then d else mx)
            h := by
        simp [mockPeakDay, List.headD, lt_irrefl]
      by_cases hcase : ∃ x ∈ t, h.activeUsers < x.activeUsers
      · obtain ⟨pre, d, post, hsplit, hfold, hgt, hpre, hall⟩ :=
          mockPeak_first t h hcase
        refine ⟨h :: pre, d, post, by simp [hsplit], ?_, ?_, ?_, ?_⟩
        · simp only [mockSummary, hstart, hfold]
        · simp only [mockSummary, hstart, hfold]
        · intro e he
          rcases List.mem_cons.mp he with he | he
          · subst he; exact hgt
          · exact hpre e he
        · intro e he
          rcases List.mem_cons.mp he with he | he
          · subst he; exact le_of_lt hgt
          · exact hall e (hsplit ▸ he)
      · push_neg at hcase
        have hid := mockPeak_id t h hcase
        refine ⟨[], h, t, rfl, ?_, ?_, ?_, ?_⟩
        · simp only [mockSummary, hstart, hid]
        · simp only [mockSummary, hstart, hid]
        · intro e he; cases he
        · intro e he
          rcases List.mem_cons.mp he with he | he
          · subst he; exact le_refl _
          · exact hcase e he
  · intro hpos
    simp only [mockSummary, specAcceptanceRate, foldl_add_eq, round2]
    rw [if_pos (by simpa [foldl_add_eq] using hpos)]
    rw [show ∀ x : ℚ, (0 : ℚ) + x = x from fun x => zero_add x]
    congr 1
    ring_nf
  · simp [mockSummary, foldl_add_eq]
  · simp [mockSummary, foldl_add_eq]

/-- C9 witness: the amended mock-formula property at the concrete two-day
synthetic sequence. -/
theorem c9_witness :
    [mockDm1, mockDm2] ≠ ([] : List DailyMetrics) ∧
    MockSummaryFormulaSpec [mockDm1, mockDm2] := by
  have hne : [mockDm1, mockDm2] ≠ ([] : List DailyMetrics) := by simp
  exact ⟨hne, c9_mock_formulas [mockDm1, mockDm2] hne⟩

/-- C10: a day whose code-completions section has no `languages` array
contributes zero to all four completion totals — wherever it sits in the
sequence — and its daily entry reports zero completions, even when `editors`
or `models` arrays carry completion numbers. -/
theorem c10_languages_only_source (pre post : List CopilotUsageMetrics)
    (day : CopilotUsageMetrics)
    (h : ∃ c, day.copilot_ide_code_completions = some c ∧ c.languages = none) :
    ZeroCompletionContribution pre post day := by
  obtain ⟨c, hc, hl⟩ := h
  have hlangs : langsOf day = [] := by simp [langsOf, hc, hl]
  have h1 : daySuggestions day = 0 := by simp [daySuggestions, hlangs]
  have h2 : dayAcceptances day = 0 := by simp [dayAcceptances, hlangs]
  have h3 : dayLinesSuggested day = 0 := by simp [dayLinesSuggested, hlangs]
  have h4 : dayLinesAccepted day = 0 := by simp [dayLinesAccepted, hlangs]
  refine ⟨?_, ?_, ?_, ?_, ?_, ?_, ?_, ?_, ?_⟩
  · rw [buildSummary_suggestions, buildSummary_suggestions]
    simp [h1]
  · rw [buildSummary_acceptances, buildSummary_acceptances]
    simp [h2]
  · rw [buildSummary_linesSuggested, buildSummary_linesSuggested]
    simp [h3]
  · rw [buildSummary_linesAccepted, buildSummary_linesAccepted]
    simp [h4]
  · simp [buildDailyMetrics]
  · simp [dailyOf, hlangs]
  · simp [dailyOf, hlangs]
  · simp [dailyOf, hlangs]
  · simp [dailyOf, hlangs]

/-- C10 witness: the concrete day carrying completion numbers only in its
`editors` and `models` arrays contributes zero completions. -/
theorem c10_witness :
    (∃ c, editorsOnlyDay.copilot_ide_code_completions = some c ∧
      c.languages = none) ∧
    ZeroCompletionContribution [] [] editorsOnlyDay := by
  have h : ∃ c, editorsOnlyDay.copilot_ide_code_completions = some c ∧
      c.languages = none := ⟨_, rfl, rfl⟩
  exact ⟨h, c10_languages_only_source [] [] editorsOnlyDay h⟩

end Compass
